import Mathlib

/-!
# Attestation gossip verification: a shallow embedding

This file embeds the attestation verification pipeline of
`beacon_node/beacon_chain/src/attestation_verification.rs` in Lean 4.

Pure Rust functions become Lean functions; the mutable beacon-chain caches
become an explicit state record (`VState`) threaded through the pipeline, and
collaborator capabilities that live outside this module (slot clock, fork
choice, BLS, storage) become fields of an environment record (`VEnv`).
Operations whose effect matters only through their occurrence (signature-set
construction, BLS verification, slasher hand-off) additionally append to an
effect log, so that ordering claims such as "the signature is never checked"
can be stated about the log.

Machine integers (`Slot`, `Epoch`, `u64` indices) are modelled as `Nat`;
the only arithmetic the pipeline performs on them is comparison, addition
and the saturating subtraction of `Slot`, which coincides with `Nat`
subtraction.
-/

namespace AttnVerification


/-- A checkpoint `(epoch, root)` as in `types::Checkpoint`. -/
structure Checkpoint where
  epoch : Nat
  root : Nat
deriving DecidableEq, Repr

/-- `types::AttestationData`. -/
structure AttestationData where
  slot : Nat
  index : Nat
  beacon_block_root : Nat
  source : Checkpoint
  target : Checkpoint
deriving DecidableEq, Repr

/-- `types::Attestation`: data, committee-sized bitfield, aggregate signature
(the BLS signature itself is opaque to the pipeline and modelled as a `Nat`). -/
structure Attestation where
  data : AttestationData
  aggregation_bits : List Bool
  signature : Nat
deriving DecidableEq, Repr

/-- `types::AggregateAndProof`. -/
structure AggregateAndProof where
  aggregator_index : Nat
  aggregate : Attestation
  selection_proof : Nat
deriving DecidableEq, Repr

/-- `types::SignedAggregateAndProof`. -/
structure SignedAggregateAndProof where
  message : AggregateAndProof
  signature : Nat
deriving DecidableEq, Repr

/-- `types::IndexedAttestation`: sorted attesting indices, data, signature. -/
structure IndexedAttestation where
  attesting_indices : List Nat
  data : AttestationData
  signature : Nat
deriving DecidableEq, Repr

/-- A fork-choice block record: `fork_choice.get_block` returns the slot and
state root of a known block (`ProtoBlock`). -/
structure ProtoBlock where
  slot : Nat
  state_root : Nat
deriving DecidableEq, Repr

/-- Modelled from the spec: a beacon state, reduced to the pieces the
pipeline observes — its slot (hence its current epoch), the per-slot
state-root history written by per-slot processing, and an opaque payload
standing for the randao/validator data that committee shuffling reads. -/
structure BeaconState where
  slot : Nat
  history : List Nat
  payload : Nat
deriving DecidableEq, Repr

/-- Modelled from the spec: a committee cache for one `(epoch, target_root)`
key — `committees_per_slot` plus the lookup `(slot, committee_index) →`
ordered list of validator indices. -/
structure CommitteeCache where
  committees_per_slot : Nat
  committees : List ((Nat × Nat) × List Nat)
deriving DecidableEq, Repr

/-- The error variants of `BeaconChainError` that the pipeline can produce
(internal errors; no peer penalty). -/
inductive BeaconChainError where
  | UnableToReadSlot
  | MissingBeaconState (state_root : Nat)
  | IncorrectStateForAttestation
  | SignatureSetError
  | ArithError
  | ObservedAttestersError (index : Nat)
  | AttestationValidationError
  | SubnetError
deriving DecidableEq, Repr

/-- The `Error` enum of `attestation_verification.rs`. -/
inductive Error where
  | FutureSlot (attestation_slot latest_permissible_slot : Nat)
  | PastSlot (attestation_slot earliest_permissible_slot : Nat)
  | EmptyAggregationBitfield
  | InvalidSelectionProof (aggregator_index : Nat)
  | AggregatorNotInCommittee (aggregator_index : Nat)
  | AggregatorPubkeyUnknown (aggregator_index : Nat)
  | AttestationAlreadyKnown (root : Nat)
  | AggregatorAlreadyKnown (aggregator_index : Nat)
  | ValidatorIndexTooHigh (index : Nat)
  | UnknownHeadBlock (beacon_block_root : Nat)
  | BadTargetEpoch
  | UnknownTargetRoot (root : Nat)
  | InvalidSignature
  | NoCommitteeForSlotAndIndex (slot : Nat) (index : Nat)
  | NotExactlyOneAggregationBitSet (n : Nat)
  | PriorAttestationKnown (validator_index : Nat) (epoch : Nat)
  | FutureEpoch (attestation_epoch current_epoch : Nat)
  | PastEpoch (attestation_epoch current_epoch : Nat)
  | AttestsToFutureBlock (block attn : Nat)
  | InvalidSubnetId (received expected : Nat)
  | Invalid
  | TooManySkippedSlots (head_block_slot attestation_slot : Nat)
  | BeaconChainError (e : BeaconChainError)
deriving DecidableEq, Repr

/-- `AttestationSlashInfo`: classification of failures for the slasher. -/
inductive AttestationSlashInfo where
  | SignatureNotChecked (a : Attestation) (e : Error)
  | SignatureNotCheckedIndexed (i : IndexedAttestation) (e : Error)
  | SignatureInvalid (e : Error)
  | SignatureValid (i : IndexedAttestation) (e : Error)
deriving DecidableEq, Repr

/-- Effect log entries, recording the occurrence of the operations whose
ordering the specification talks about. -/
inductive VEffect where
  | sigSetBuilt
  | blsBatchVerify
  | singleSigVerify
  | slasherAccept
deriving DecidableEq, Repr

/-- Decidable equality for `Except`, needed to evaluate pipeline results on
concrete inputs. -/
instance {e a : Type} [DecidableEq e] [DecidableEq a] :
    DecidableEq (Except e a) := fun x y =>
  match x, y with
  | .ok u, .ok v =>
    if h : u = v then isTrue (by rw [h]) else isFalse (by simp [h])
  | .error u, .error v =>
    if h : u = v then isTrue (by rw [h]) else isFalse (by simp [h])
  | .ok _, .error _ => isFalse (by simp)
  | .error _, .ok _ => isFalse (by simp)

/-- Association-list lookup (first match wins), used for every keyed
read-only index of the embedding. -/
def alookup {α β : Type} [DecidableEq α] : List (α × β) → α → Option β
  | [], _ => none
  | (k, v) :: rest, key => if key = k then some v else alookup rest key

/-- `CommitteeCache::get_beacon_committee`. -/
def CommitteeCache.get_beacon_committee (cc : CommitteeCache) (slot : Nat)
    (index : Nat) : Option (List Nat) :=
  alookup cc.committees (slot, index)

/-- The environment: static configuration and collaborator capabilities
consumed by the pipeline (spec §6). Function-valued fields stand for the
external components (tree hashing, BLS, subnet formula, storage, shuffling)
whose code is outside this module. -/
structure VEnv where
  slots_per_epoch : Nat
  /-- `slot_clock.now_with_future_tolerance(MAXIMUM_GOSSIP_CLOCK_DISPARITY)`. -/
  clock_future : Option Nat
  /-- `slot_clock.now_with_past_tolerance(MAXIMUM_GOSSIP_CLOCK_DISPARITY)`. -/
  clock_past : Option Nat
  /-- `fork_choice.get_block`: root to block index. -/
  fork_choice : List (Nat × ProtoBlock)
  /-- `chain.config.import_max_skip_slots`. -/
  import_max_skip_slots : Option Nat
  /-- `validator_pubkey_cache.len()`. -/
  pubkey_cache_len : Nat
  /-- Modelled from the spec: the sanity bound above which the per-epoch
  observation caches report `ValidatorIndexTooHigh`. -/
  validator_cap : Nat
  /-- Whether `chain.slasher` is configured. -/
  slasher : Bool
  /-- `tree_hash_root` on attestations. -/
  tree_hash : Attestation → Nat
  /-- `SelectionProof::is_aggregator(committee_len, spec)`; `none` is the
  arithmetic-error case mapped to a `BeaconChainError`. -/
  is_aggregator : Nat → Nat → Option Bool
  /-- Whether the three signature sets of a signed aggregate can be built
  (`false` is the `SignatureSetError` case). -/
  agg_sets_ok : SignedAggregateAndProof → IndexedAttestation → Bool
  /-- `verify_signature_sets` on the three-set batch. -/
  agg_batch_valid : SignedAggregateAndProof → IndexedAttestation → Bool
  /-- Whether the single indexed-attestation signature set can be built. -/
  att_set_ok : IndexedAttestation → Bool
  /-- Single indexed-attestation signature verification. -/
  att_sig_valid : IndexedAttestation → Bool
  /-- `SubnetId::compute_subnet_for_attestation_data`; `none` is the error
  case mapped to a `BeaconChainError`. -/
  compute_subnet : AttestationData → Nat → Option Nat
  /-- `store.get_inconsistent_state_for_attestation_verification_only`. -/
  store : Nat → Option BeaconState
  /-- Modelled from the spec: building the committee cache of a state for a
  given epoch (`build_committee_cache` followed by `committee_cache`). -/
  state_committee_cache : BeaconState → Nat → CommitteeCache

/-- The mutable caches of the chain that the pipeline reads and writes,
plus the list of indexed attestations the slasher sink has received. -/
structure VState where
  observed_attestations : List Nat
  observed_aggregators : List (Nat × Nat)
  observed_attesters : List (Nat × Nat)
  shuffling_cache : List ((Nat × Nat) × CommitteeCache)
  slasher_received : List IndexedAttestation
deriving DecidableEq, Repr

/-- Modelled from the spec: per-epoch observation query
(`validator_has_been_observed` on the observed-attesters/aggregators caches);
errors `ValidatorIndexTooHigh` above the sanity bound, else reports whether
`(epoch, index)` has been observed. The error is returned as the raw index so
each caller can map it as the source does. -/
def obs_has_been_observed (cap : Nat) (set : List (Nat × Nat)) (epoch : Nat)
    (index : Nat) : Except Nat Bool :=
  if cap ≤ index then .error index else .ok ((epoch, index) ∈ set)

/-- Modelled from the spec: per-epoch observation insert (`observe_validator`);
returns whether the entry was already present, inserting it if not. -/
def obs_observe_validator (cap : Nat) (set : List (Nat × Nat)) (epoch : Nat)
    (index : Nat) : Except Nat (Bool × List (Nat × Nat)) :=
  if cap ≤ index then .error index
  else if (epoch, index) ∈ set then .ok (true, set)
  else .ok (false, (epoch, index) :: set)

/-- Modelled from the spec: `observed_attestations.observe_attestation` —
dedup by attestation tree hash; returns `true` (already known) without
re-inserting, or inserts and returns `false`. -/
def obs_attestations_observe (roots : List Nat) (root : Nat) :
    Bool × List Nat :=
  if root ∈ roots then (true, roots) else (false, root :: roots)

/-- `verify_propagation_slot_range`. -/
def verify_propagation_slot_range (env : VEnv) (a : Attestation) :
    Except Error Unit :=
  let attestation_slot := a.data.slot
  match env.clock_future with
  | none => .error (.BeaconChainError .UnableToReadSlot)
  | some latest_permissible_slot =>
    if attestation_slot > latest_permissible_slot then
      .error (.FutureSlot attestation_slot latest_permissible_slot)
    else
      match env.clock_past with
      | none => .error (.BeaconChainError .UnableToReadSlot)
      | some now_past =>
        let earliest_permissible_slot := now_past - env.slots_per_epoch
        if attestation_slot < earliest_permissible_slot then
          .error (.PastSlot attestation_slot earliest_permissible_slot)
        else .ok ()

/-- `verify_head_block_is_known`. -/
def verify_head_block_is_known (env : VEnv) (a : Attestation)
    (max_skip_slots : Option Nat) : Except Error Unit :=
  match alookup env.fork_choice a.data.beacon_block_root with
  | some block =>
    match max_skip_slots with
    | some k =>
      if a.data.slot > block.slot + k then
        .error (.TooManySkippedSlots block.slot a.data.slot)
      else .ok ()
    | none => .ok ()
  | none => .error (.UnknownHeadBlock a.data.beacon_block_root)

/-- Modelled from the spec: `per_slot_processing` with an optional
pre-supplied state root — advances the state by one slot, recording the
supplied root (the zero sentinel when hashing is disabled) in the history. -/
def per_slot_processing (state : BeaconState) (root : Option Nat) :
    BeaconState :=
  { state with slot := state.slot + 1, history := state.history ++ [root.getD 0] }

/-- `state.current_epoch()`. -/
def current_epoch (spe : Nat) (state : BeaconState) : Nat :=
  state.slot / spe

/-- The fast-forward loop of `map_attestation_committee`: apply per-slot
processing with the zero state-root sentinel while
`state.current_epoch() + 1 < attestation_epoch`. The Rust loop terminates
because each iteration advances the slot; fuel makes the recursion
structural, and is chosen large enough that it is never exhausted
(for positive `slots_per_epoch`). -/
def fast_forward (spe attestation_epoch : Nat) : Nat → BeaconState → BeaconState
  | 0, state => state
  | fuel + 1, state =>
    if current_epoch spe state + 1 < attestation_epoch then
      fast_forward spe attestation_epoch fuel
        (per_slot_processing state (some 0))
    else state

/-- `RelativeEpoch` from `types` (previous / current / next). -/
inductive RelativeEpoch where
  | Previous
  | Current
  | Next
deriving DecidableEq, Repr

/-- Modelled from the spec: relative-epoch resolution (§4.3 step 5); the
attestation epoch must be the state's previous, current or next epoch — the
next case is what the fast-forward loop, which stops one epoch short, relies
on — otherwise the internal error `IncorrectStateForAttestation`. -/
def RelativeEpoch.from_epoch (base other : Nat) : Option RelativeEpoch :=
  if other + 1 = base then some .Previous
  else if other = base then some .Current
  else if other = base + 1 then some .Next
  else none

/-- Modelled from the spec: shuffling-cache insertion, idempotent on key
collision (the first insertion wins). -/
def shuffling_insert (sc : List ((Nat × Nat) × CommitteeCache))
    (key : Nat × Nat) (cc : CommitteeCache) :
    List ((Nat × Nat) × CommitteeCache) :=
  match alookup sc key with
  | some _ => sc
  | none => (key, cc) :: sc

/-- Modelled from the spec (§4.4): `get_indexed_attestation` from
`state_processing` — select the committee members whose aggregation bit is
set and sort ascending; error when the bitfield length differs from the
committee length. -/
def get_indexed_attestation (committee : List Nat) (a : Attestation) :
    Except Unit IndexedAttestation :=
  if a.aggregation_bits.length = committee.length then
    let indices := (committee.zip a.aggregation_bits).filterMap
      (fun p => if p.2 then some p.1 else none)
    .ok { attesting_indices := indices.insertionSort (· ≤ ·),
          data := a.data,
          signature := a.signature }
  else .error ()

/-- `map_attestation_committee`: resolve the committee for
`(attestation.data.slot, attestation.data.index)` under the target root,
through the shuffling cache on a hit or by loading and fast-forwarding the
target state on a miss, and run the caller-supplied transform on
`(committee, committees_per_slot)`. Returns the transform's result together
with the possibly-extended shuffling cache. -/
def map_attestation_committee {R : Type} (env : VEnv) (st : VState)
    (a : Attestation) (f : List Nat → Nat → Except Error R) :
    Except Error R × VState :=
  let attestation_epoch := a.data.slot / env.slots_per_epoch
  let target := a.data.target
  match alookup env.fork_choice target.root with
  | none => (.error (.UnknownTargetRoot target.root), st)
  | some target_block =>
    match alookup st.shuffling_cache (attestation_epoch, target.root) with
    | some committee_cache =>
      let committees_per_slot := committee_cache.committees_per_slot
      match committee_cache.get_beacon_committee a.data.slot a.data.index with
      | some committee => (f committee committees_per_slot, st)
      | none =>
        (.error (.NoCommitteeForSlotAndIndex a.data.slot a.data.index), st)
    | none =>
      match env.store target_block.state_root with
      | none =>
        (.error (.BeaconChainError (.MissingBeaconState target_block.state_root)),
         st)
      | some state₀ =>
        let state := fast_forward env.slots_per_epoch attestation_epoch
          (attestation_epoch * env.slots_per_epoch + 1) state₀
        match RelativeEpoch.from_epoch (current_epoch env.slots_per_epoch state)
            attestation_epoch with
        | none => (.error (.BeaconChainError .IncorrectStateForAttestation), st)
        | some _ =>
          let committee_cache := env.state_committee_cache state attestation_epoch
          let sc' := shuffling_insert st.shuffling_cache
            (attestation_epoch, target.root) committee_cache
          let st' := { st with shuffling_cache := sc' }
          let committees_per_slot := committee_cache.committees_per_slot
          match committee_cache.get_beacon_committee a.data.slot a.data.index with
          | some committee => (f committee committees_per_slot, st')
          | none =>
            (.error (.NoCommitteeForSlotAndIndex a.data.slot a.data.index), st')

/-- `obtain_indexed_attestation_and_committees_per_slot`. -/
def obtain_indexed_attestation_and_committees_per_slot (env : VEnv)
    (st : VState) (a : Attestation) :
    Except Error (IndexedAttestation × Nat) × VState :=
  map_attestation_committee env st a (fun committee committees_per_slot =>
    match get_indexed_attestation committee a with
    | .ok ia => .ok (ia, committees_per_slot)
    | .error _ => .error (.BeaconChainError .AttestationValidationError))

/-- `VerifiedAggregatedAttestation`. -/
structure VerifiedAggregatedAttestation where
  signed_aggregate : SignedAggregateAndProof
  indexed_attestation : IndexedAttestation
deriving DecidableEq, Repr

/-- `VerifiedUnaggregatedAttestation`. -/
structure VerifiedUnaggregatedAttestation where
  attestation : Attestation
  indexed_attestation : IndexedAttestation
deriving DecidableEq, Repr

/-- `verify_signed_aggregate_signatures`: reject an aggregator index beyond
the pubkey cache before building any signature set, then build the three
signature sets and run the batched BLS verification. The effect log records
the set construction and the batch call. -/
def verify_signed_aggregate_signatures (env : VEnv)
    (signed_aggregate : SignedAggregateAndProof)
    (indexed_attestation : IndexedAttestation) :
    Except Error Bool × List VEffect :=
  let aggregator_index := signed_aggregate.message.aggregator_index
  if env.pubkey_cache_len ≤ aggregator_index then
    (.error (.AggregatorPubkeyUnknown aggregator_index), [])
  else if env.agg_sets_ok signed_aggregate indexed_attestation then
    (.ok (env.agg_batch_valid signed_aggregate indexed_attestation),
     [.sigSetBuilt, .blsBatchVerify])
  else
    (.error (.BeaconChainError .SignatureSetError), [.sigSetBuilt])

/-- `verify_attestation_signature`: build the single indexed-attestation
signature set and verify it. -/
def verify_attestation_signature (env : VEnv)
    (indexed_attestation : IndexedAttestation) :
    Except Error Unit × List VEffect :=
  if env.att_set_ok indexed_attestation then
    if env.att_sig_valid indexed_attestation then
      (.ok (), [.sigSetBuilt, .singleSigVerify])
    else
      (.error .InvalidSignature, [.sigSetBuilt, .singleSigVerify])
  else
    (.error (.BeaconChainError .SignatureSetError), [.sigSetBuilt])

/-- `process_slash_info`: when a slasher is configured, forward the indexed
attestation for the variants that carry (or can recover) one, and always
return the original error to the caller. -/
def process_slash_info (env : VEnv) (st : VState)
    (slash_info : AttestationSlashInfo) : Error × VState × List VEffect :=
  if env.slasher then
    match slash_info with
    | .SignatureNotChecked a err =>
      match obtain_indexed_attestation_and_committees_per_slot env st a with
      | (.ok (indexed, _), st₁) =>
        (err, { st₁ with slasher_received := st₁.slasher_received ++ [indexed] },
         [.slasherAccept])
      | (.error _, st₁) => (err, st₁, [])
    | .SignatureNotCheckedIndexed indexed err =>
      (err, { st with slasher_received := st.slasher_received ++ [indexed] },
       [.slasherAccept])
    | .SignatureInvalid e => (e, st, [])
    | .SignatureValid indexed err =>
      (err, { st with slasher_received := st.slasher_received ++ [indexed] },
       [.slasherAccept])
  else
    match slash_info with
    | .SignatureNotChecked _ e => (e, st, [])
    | .SignatureNotCheckedIndexed _ e => (e, st, [])
    | .SignatureInvalid e => (e, st, [])
    | .SignatureValid _ e => (e, st, [])

namespace VerifiedAggregatedAttestation

/-- `VerifiedAggregatedAttestation::verify_early_checks`: slot range, dedup
by attestation root, aggregator not yet observed, head block known (no skip
limit), non-empty aggregation bits. Read-only on the caches; returns the
attestation root on success. -/
def verify_early_checks (env : VEnv) (st : VState)
    (signed_aggregate : SignedAggregateAndProof) : Except Error Nat :=
  let attestation := signed_aggregate.message.aggregate
  match verify_propagation_slot_range env attestation with
  | .error e => .error e
  | .ok _ =>
    let attestation_root := env.tree_hash attestation
    if attestation_root ∈ st.observed_attestations then
      .error (.AttestationAlreadyKnown attestation_root)
    else
      let aggregator_index := signed_aggregate.message.aggregator_index
      match obs_has_been_observed env.validator_cap st.observed_aggregators
          attestation.data.target.epoch aggregator_index with
      | .error i => .error (.ValidatorIndexTooHigh i)
      | .ok true => .error (.AggregatorAlreadyKnown aggregator_index)
      | .ok false =>
        match verify_head_block_is_known env attestation none with
        | .error e => .error e
        | .ok _ =>
          if attestation.aggregation_bits.all (· = false) then
            .error .EmptyAggregationBitfield
          else .ok attestation_root

/-- `VerifiedAggregatedAttestation::verify_late_checks`: insert the
attestation root and the aggregator index into the observation caches,
re-checking for concurrent insertion. -/
def verify_late_checks (env : VEnv) (st : VState)
    (signed_aggregate : SignedAggregateAndProof) (attestation_root : Nat) :
    Except Error Unit × VState :=
  let attestation := signed_aggregate.message.aggregate
  let aggregator_index := signed_aggregate.message.aggregator_index
  match obs_attestations_observe st.observed_attestations attestation_root with
  | (true, roots) =>
    (.error (.AttestationAlreadyKnown attestation_root),
     { st with observed_attestations := roots })
  | (false, roots) =>
    let st₁ := { st with observed_attestations := roots }
    match obs_observe_validator env.validator_cap st₁.observed_aggregators
        attestation.data.target.epoch aggregator_index with
    | .error i =>
      (.error (.BeaconChainError (.ObservedAttestersError i)), st₁)
    | .ok (true, s) =>
      (.error (.PriorAttestationKnown aggregator_index
        attestation.data.target.epoch),
       { st₁ with observed_aggregators := s })
    | .ok (false, s) =>
      (.ok (), { st₁ with observed_aggregators := s })

/-- The transform run by `verify_slashable` inside
`map_attestation_committee`: selection-proof eligibility first, then
aggregator committee membership, then indexed-attestation derivation. -/
def committee_transform (env : VEnv)
    (signed_aggregate : SignedAggregateAndProof) (committee : List Nat)
    (_committees_per_slot : Nat) : Except Error IndexedAttestation :=
  let aggregator_index := signed_aggregate.message.aggregator_index
  match env.is_aggregator signed_aggregate.message.selection_proof
      committee.length with
  | none => .error (.BeaconChainError .ArithError)
  | some false => .error (.InvalidSelectionProof aggregator_index)
  | some true =>
    if aggregator_index ∈ committee then
      match get_indexed_attestation committee
          signed_aggregate.message.aggregate with
      | .ok indexed => .ok indexed
      | .error _ => .error (.BeaconChainError .AttestationValidationError)
    else .error (.AggregatorNotInCommittee aggregator_index)

/-- `VerifiedAggregatedAttestation::verify_slashable`: the full aggregate
pipeline below `verify`, classifying every failure for the slasher. -/
def verify_slashable (env : VEnv) (st : VState)
    (signed_aggregate : SignedAggregateAndProof) :
    Except AttestationSlashInfo VerifiedAggregatedAttestation × VState ×
      List VEffect :=
  match verify_early_checks env st signed_aggregate with
  | .error e =>
    (.error (.SignatureNotChecked signed_aggregate.message.aggregate e), st, [])
  | .ok attestation_root =>
    match map_attestation_committee env st signed_aggregate.message.aggregate
        (committee_transform env signed_aggregate) with
    | (.error e, st₁) =>
      (.error (.SignatureNotChecked signed_aggregate.message.aggregate e),
       st₁, [])
    | (.ok indexed_attestation, st₁) =>
      match verify_signed_aggregate_signatures env signed_aggregate
          indexed_attestation with
      | (.error e, log) => (.error (.SignatureInvalid e), st₁, log)
      | (.ok false, log) =>
        (.error (.SignatureInvalid .InvalidSignature), st₁, log)
      | (.ok true, log) =>
        match verify_late_checks env st₁ signed_aggregate attestation_root with
        | (.error e, st₂) =>
          (.error (.SignatureValid indexed_attestation e), st₂, log)
        | (.ok _, st₂) =>
          (.ok { signed_aggregate, indexed_attestation }, st₂, log)

/-- `VerifiedAggregatedAttestation::verify`: `verify_slashable` followed by
`process_slash_info` on failure. -/
def verify (env : VEnv) (st : VState)
    (signed_aggregate : SignedAggregateAndProof) :
    Except Error VerifiedAggregatedAttestation × VState × List VEffect :=
  match verify_slashable env st signed_aggregate with
  | (.ok v, st', log) => (.ok v, st', log)
  | (.error slash_info, st', log) =>
    let p := process_slash_info env st' slash_info
    (.error p.1, p.2.1, log ++ p.2.2)

end VerifiedAggregatedAttestation

namespace VerifiedUnaggregatedAttestation

/-- `VerifiedUnaggregatedAttestation::verify_early_checks`: slot range,
exactly one aggregation bit, head block known under the configured skip
limit. Reads no cache state. -/
def verify_early_checks (env : VEnv) (attestation : Attestation) :
    Except Error Unit :=
  match verify_propagation_slot_range env attestation with
  | .error e => .error e
  | .ok _ =>
    let num_aggregation_bits := attestation.aggregation_bits.count true
    if num_aggregation_bits ≠ 1 then
      .error (.NotExactlyOneAggregationBitSet num_aggregation_bits)
    else
      verify_head_block_is_known env attestation env.import_max_skip_slots

/-- `VerifiedUnaggregatedAttestation::verify_middle_checks`: subnet check,
sole-attester extraction (with the `NotExactlyOneAggregationBitSet 0`
fallback instead of an unchecked index), prior-observation check. -/
def verify_middle_checks (env : VEnv) (st : VState)
    (attestation : Attestation) (indexed_attestation : IndexedAttestation)
    (committees_per_slot : Nat) (subnet_id : Nat) : Except Error Nat :=
  match env.compute_subnet indexed_attestation.data committees_per_slot with
  | none => .error (.BeaconChainError .SubnetError)
  | some expected_subnet_id =>
    if subnet_id ≠ expected_subnet_id then
      .error (.InvalidSubnetId subnet_id expected_subnet_id)
    else
      match indexed_attestation.attesting_indices.head? with
      | none => .error (.NotExactlyOneAggregationBitSet 0)
      | some validator_index =>
        match obs_has_been_observed env.validator_cap st.observed_attesters
            attestation.data.target.epoch validator_index with
        | .error i => .error (.BeaconChainError (.ObservedAttestersError i))
        | .ok true =>
          .error (.PriorAttestationKnown validator_index
            attestation.data.target.epoch)
        | .ok false => .ok validator_index

/-- `VerifiedUnaggregatedAttestation::verify_late_checks`: insert the
attester into the observed-attesters cache, re-checking for concurrent
insertion. -/
def verify_late_checks (env : VEnv) (st : VState) (attestation : Attestation)
    (validator_index : Nat) : Except Error Unit × VState :=
  match obs_observe_validator env.validator_cap st.observed_attesters
      attestation.data.target.epoch validator_index with
  | .error i => (.error (.BeaconChainError (.ObservedAttestersError i)), st)
  | .ok (true, s) =>
    (.error (.PriorAttestationKnown validator_index
      attestation.data.target.epoch),
     { st with observed_attesters := s })
  | .ok (false, s) => (.ok (), { st with observed_attesters := s })

/-- `VerifiedUnaggregatedAttestation::verify_slashable`: the full
unaggregated pipeline below `verify`. -/
def verify_slashable (env : VEnv) (st : VState) (attestation : Attestation)
    (subnet_id : Nat) :
    Except AttestationSlashInfo VerifiedUnaggregatedAttestation × VState ×
      List VEffect :=
  match verify_early_checks env attestation with
  | .error e => (.error (.SignatureNotChecked attestation e), st, [])
  | .ok _ =>
    match obtain_indexed_attestation_and_committees_per_slot env st
        attestation with
    | (.error e, st₁) => (.error (.SignatureNotChecked attestation e), st₁, [])
    | (.ok (indexed_attestation, committees_per_slot), st₁) =>
      match verify_middle_checks env st₁ attestation indexed_attestation
          committees_per_slot subnet_id with
      | .error e =>
        (.error (.SignatureNotCheckedIndexed indexed_attestation e), st₁, [])
      | .ok validator_index =>
        match verify_attestation_signature env indexed_attestation with
        | (.error e, log) => (.error (.SignatureInvalid e), st₁, log)
        | (.ok _, log) =>
          match verify_late_checks env st₁ attestation validator_index with
          | (.error e, st₂) =>
            (.error (.SignatureValid indexed_attestation e), st₂, log)
          | (.ok _, st₂) =>
            (.ok { attestation, indexed_attestation }, st₂, log)

/-- `VerifiedUnaggregatedAttestation::verify`. -/
def verify (env : VEnv) (st : VState) (attestation : Attestation)
    (subnet_id : Nat) :
    Except Error VerifiedUnaggregatedAttestation × VState × List VEffect :=
  match verify_slashable env st attestation subnet_id with
  | (.ok v, st', log) => (.ok v, st', log)
  | (.error slash_info, st', log) =>
    let p := process_slash_info env st' slash_info
    (.error p.1, p.2.1, log ++ p.2.2)

end VerifiedUnaggregatedAttestation

/-- The original pipeline error carried by a slash-info classification. -/
def AttestationSlashInfo.error : AttestationSlashInfo → Error
  | .SignatureNotChecked _ e => e
  | .SignatureNotCheckedIndexed _ e => e
  | .SignatureInvalid e => e
  | .SignatureValid _ e => e

/-! ## Stage-level inversion lemmas -/

theorem process_slash_info_fst (env : VEnv) (st : VState)
    (si : AttestationSlashInfo) :
    (process_slash_info env st si).1 = si.error := by
  unfold process_slash_info
  by_cases h : env.slasher <;>
    simp only [h, if_true, if_false, Bool.false_eq_true, ite_true, ite_false] <;>
    cases si <;> simp [AttestationSlashInfo.error]
  split <;> simp

theorem process_slash_info_sig_invalid (env : VEnv) (st : VState) (e : Error) :
    process_slash_info env st (.SignatureInvalid e) = (e, st, []) := by
  unfold process_slash_info
  by_cases h : env.slasher <;> simp [h]

theorem verify_propagation_slot_range_error_cases (env : VEnv)
    (a : Attestation) (e : Error)
    (h : verify_propagation_slot_range env a = .error e) :
    (∃ s l, e = .FutureSlot s l) ∨ (∃ s l, e = .PastSlot s l) ∨
      e = .BeaconChainError .UnableToReadSlot := by
  unfold verify_propagation_slot_range at h
  try dsimp only [] at h
  split at h
  · exact Or.inr (Or.inr (Except.error.inj h).symm)
  · split at h
    · exact Or.inl ⟨_, _, (Except.error.inj h).symm⟩
    · split at h
      · exact Or.inr (Or.inr (Except.error.inj h).symm)
      · split at h
        · exact Or.inr (Or.inl ⟨_, _, (Except.error.inj h).symm⟩)
        · simp at h

theorem verify_head_block_is_known_error_cases (env : VEnv) (a : Attestation)
    (mss : Option Nat) (e : Error)
    (h : verify_head_block_is_known env a mss = .error e) :
    (∃ hb as, e = .TooManySkippedSlots hb as ∧ mss ≠ none) ∨
      e = .UnknownHeadBlock a.data.beacon_block_root := by
  unfold verify_head_block_is_known at h
  split at h
  · split at h
    · split at h
      · exact Or.inl ⟨_, _, (Except.error.inj h).symm, by simp⟩
      · simp at h
    · simp at h
  · exact Or.inr (Except.error.inj h).symm

theorem map_attestation_committee_error_cases {R : Type} (env : VEnv)
    (st : VState) (a : Attestation) (f : List Nat → Nat → Except Error R)
    (e : Error) (st₁ : VState)
    (h : map_attestation_committee env st a f = (.error e, st₁)) :
    (∃ r, e = .UnknownTargetRoot r) ∨
      (∃ s i, e = .NoCommitteeForSlotAndIndex s i) ∨
      (∃ b, e = .BeaconChainError b) ∨
      (∃ c n, f c n = .error e) := by
  unfold map_attestation_committee at h
  try dsimp only [] at h
  split at h
  · simp only [Prod.mk.injEq, Except.error.injEq] at h
    exact Or.inl ⟨_, h.1.symm⟩
  · split at h
    · split at h
      · rename_i committee hc
        simp only [Prod.mk.injEq] at h
        exact Or.inr (Or.inr (Or.inr ⟨committee, _, h.1⟩))
      · simp only [Prod.mk.injEq, Except.error.injEq] at h
        exact Or.inr (Or.inl ⟨_, _, h.1.symm⟩)
    · split at h
      · simp only [Prod.mk.injEq, Except.error.injEq] at h
        exact Or.inr (Or.inr (Or.inl ⟨_, h.1.symm⟩))
      · split at h
        · simp only [Prod.mk.injEq, Except.error.injEq] at h
          exact Or.inr (Or.inr (Or.inl ⟨_, h.1.symm⟩))
        · split at h
          · rename_i committee hc
            simp only [Prod.mk.injEq] at h
            exact Or.inr (Or.inr (Or.inr ⟨committee, _, h.1⟩))
          · simp only [Prod.mk.injEq, Except.error.injEq] at h
            exact Or.inr (Or.inl ⟨_, _, h.1.symm⟩)

/-- `map_attestation_committee` only writes the shuffling cache. -/
theorem map_attestation_committee_frame {R : Type} (env : VEnv) (st : VState)
    (a : Attestation) (f : List Nat → Nat → Except Error R)
    (r : Except Error R) (st₁ : VState)
    (h : map_attestation_committee env st a f = (r, st₁)) :
    st₁.observed_attestations = st.observed_attestations ∧
      st₁.observed_aggregators = st.observed_aggregators ∧
      st₁.observed_attesters = st.observed_attesters ∧
      st₁.slasher_received = st.slasher_received := by
  unfold map_attestation_committee at h
  try dsimp only [] at h
  split at h
  · simp only [Prod.mk.injEq] at h
    obtain ⟨-, h2⟩ := h
    subst h2; simp
  · split at h
    · split at h <;>
        (simp only [Prod.mk.injEq] at h
         obtain ⟨-, h2⟩ := h
         subst h2; simp)
    · split at h
      · simp only [Prod.mk.injEq] at h
        obtain ⟨-, h2⟩ := h
        subst h2; simp
      · split at h
        · simp only [Prod.mk.injEq] at h
          obtain ⟨-, h2⟩ := h
          subst h2; simp
        · split at h <;>
            (simp only [Prod.mk.injEq] at h
             obtain ⟨-, h2⟩ := h
             subst h2; simp)

theorem alookup_shuffling_insert_self (sc : List ((Nat × Nat) × CommitteeCache))
    (key : Nat × Nat) (cc : CommitteeCache)
    (habs : alookup sc key = none) :
    alookup (shuffling_insert sc key cc) key = some cc := by
  unfold shuffling_insert
  rw [habs]
  simp [alookup]

/-- `map_attestation_committee` factors through the identity transform:
the committee-resolution path depends only on the environment, cache state
and attestation, while the transform only shapes the returned value. -/
theorem map_attestation_committee_split {R : Type} (env : VEnv) (st : VState)
    (a : Attestation) (f : List Nat → Nat → Except Error R) :
    map_attestation_committee env st a f =
      match map_attestation_committee env st a (fun c n => .ok (c, n)) with
      | (.ok (c, n), st₁) => (f c n, st₁)
      | (.error e, st₁) => (.error e, st₁) := by
  unfold map_attestation_committee
  dsimp only []
  split
  · rfl
  · split
    · split <;> rfl
    · split
      · rfl
      · split
        · rfl
        · split <;> rfl

/-- Successful committee resolution leaves the final shuffling cache with an
entry whose committee lookup reproduces the transform input. -/
theorem map_attestation_committee_ok_inv {R : Type} (env : VEnv) (st : VState)
    (a : Attestation) (f : List Nat → Nat → Except Error R) (r : R)
    (st₁ : VState)
    (h : map_attestation_committee env st a f = (.ok r, st₁)) :
    ∃ tb cc committee,
      alookup env.fork_choice a.data.target.root = some tb ∧
      alookup st₁.shuffling_cache
        (a.data.slot / env.slots_per_epoch, a.data.target.root) = some cc ∧
      cc.get_beacon_committee a.data.slot a.data.index = some committee ∧
      f committee cc.committees_per_slot = .ok r := by
  unfold map_attestation_committee at h
  try dsimp only [] at h
  split at h
  · simp at h
  · split at h
    · split at h
      · simp only [Prod.mk.injEq] at h
        obtain ⟨h1, h2⟩ := h
        subst h2
        exact ⟨_, _, _, by assumption, by assumption, by assumption, h1⟩
      · simp at h
    · split at h
      · simp at h
      · split at h
        · simp at h
        · split at h
          · simp only [Prod.mk.injEq] at h
            obtain ⟨h1, h2⟩ := h
            subst h2
            exact ⟨_, _, _, by assumption,
              alookup_shuffling_insert_self _ _ _ (by assumption),
              by assumption, h1⟩
          · simp at h

/-- The hit path of `map_attestation_committee`: with the target block known
and the committee present in the shuffling cache, the transform runs
directly and the state is unchanged. -/
theorem map_attestation_committee_hit {R : Type} (env : VEnv) (st : VState)
    (a : Attestation) (f : List Nat → Nat → Except Error R) (tb : ProtoBlock)
    (cc : CommitteeCache) (committee : List Nat)
    (htb : alookup env.fork_choice a.data.target.root = some tb)
    (hsc : alookup st.shuffling_cache
      (a.data.slot / env.slots_per_epoch, a.data.target.root) = some cc)
    (hcom : cc.get_beacon_committee a.data.slot a.data.index = some committee) :
    map_attestation_committee env st a f =
      (f committee cc.committees_per_slot, st) := by
  unfold map_attestation_committee
  simp [htb, hsc, hcom]

theorem committee_transform_error_cases (env : VEnv)
    (sa : SignedAggregateAndProof) (c : List Nat) (n : Nat) (e : Error)
    (h : VerifiedAggregatedAttestation.committee_transform env sa c n = .error e) :
    (∃ b, e = .BeaconChainError b) ∨ (∃ i, e = .InvalidSelectionProof i) ∨
      (∃ i, e = .AggregatorNotInCommittee i) := by
  unfold VerifiedAggregatedAttestation.committee_transform at h
  try dsimp only [] at h
  split at h
  · exact Or.inl ⟨_, (Except.error.inj h).symm⟩
  · exact Or.inr (Or.inl ⟨_, (Except.error.inj h).symm⟩)
  · split at h
    · split at h
      · simp at h
      · exact Or.inl ⟨_, (Except.error.inj h).symm⟩
    · exact Or.inr (Or.inr ⟨_, (Except.error.inj h).symm⟩)

theorem verify_signed_aggregate_signatures_error_cases (env : VEnv)
    (sa : SignedAggregateAndProof) (ia : IndexedAttestation) (e : Error)
    (log : List VEffect)
    (h : verify_signed_aggregate_signatures env sa ia = (.error e, log)) :
    e = .AggregatorPubkeyUnknown sa.message.aggregator_index ∨
      e = .BeaconChainError .SignatureSetError := by
  unfold verify_signed_aggregate_signatures at h
  try dsimp only [] at h
  split at h
  · simp only [Prod.mk.injEq, Except.error.injEq] at h
    exact Or.inl h.1.symm
  · split at h
    · simp at h
    · simp only [Prod.mk.injEq, Except.error.injEq] at h
      exact Or.inr h.1.symm

theorem verify_attestation_signature_error_cases (env : VEnv)
    (ia : IndexedAttestation) (e : Error) (log : List VEffect)
    (h : verify_attestation_signature env ia = (.error e, log)) :
    e = .InvalidSignature ∨ e = .BeaconChainError .SignatureSetError := by
  unfold verify_attestation_signature at h
  split at h
  · split at h
    · simp at h
    · simp only [Prod.mk.injEq, Except.error.injEq] at h
      exact Or.inl h.1.symm
  · simp only [Prod.mk.injEq, Except.error.injEq] at h
    exact Or.inr h.1.symm

theorem agg_early_checks_error_cases (env : VEnv) (st : VState)
    (sa : SignedAggregateAndProof) (e : Error)
    (h : VerifiedAggregatedAttestation.verify_early_checks env st sa = .error e) :
    (∃ s l, e = .FutureSlot s l) ∨ (∃ s l, e = .PastSlot s l) ∨
      (∃ b, e = .BeaconChainError b) ∨ (∃ r, e = .AttestationAlreadyKnown r) ∨
      (∃ i, e = .ValidatorIndexTooHigh i) ∨
      (∃ i, e = .AggregatorAlreadyKnown i) ∨
      (∃ r, e = .UnknownHeadBlock r) ∨ e = .EmptyAggregationBitfield := by
  unfold VerifiedAggregatedAttestation.verify_early_checks at h
  try dsimp only [] at h
  split at h
  · rename_i e₀ hslot
    rcases verify_propagation_slot_range_error_cases env _ e₀ hslot with
      ⟨s, l, rfl⟩ | ⟨s, l, rfl⟩ | rfl
    · exact Or.inl ⟨s, l, (Except.error.inj h).symm⟩
    · exact Or.inr (Or.inl ⟨s, l, (Except.error.inj h).symm⟩)
    · exact Or.inr (Or.inr (Or.inl ⟨_, (Except.error.inj h).symm⟩))
  · split at h
    · exact Or.inr (Or.inr (Or.inr (Or.inl ⟨_, (Except.error.inj h).symm⟩)))
    · split at h
      · exact Or.inr (Or.inr (Or.inr (Or.inr (Or.inl
          ⟨_, (Except.error.inj h).symm⟩))))
      · exact Or.inr (Or.inr (Or.inr (Or.inr (Or.inr (Or.inl
          ⟨_, (Except.error.inj h).symm⟩)))))
      · split at h
        · rename_i e₁ hhead
          rcases verify_head_block_is_known_error_cases env _ none e₁ hhead with
            ⟨hb, as, -, hne⟩ | rfl
          · exact absurd rfl hne
          · exact Or.inr (Or.inr (Or.inr (Or.inr (Or.inr (Or.inr (Or.inl
              ⟨_, (Except.error.inj h).symm⟩))))))
        · split at h
          · exact Or.inr (Or.inr (Or.inr (Or.inr (Or.inr (Or.inr (Or.inr
              (Except.error.inj h).symm))))))
          · simp at h

theorem unagg_early_checks_error_cases (env : VEnv) (a : Attestation)
    (e : Error)
    (h : VerifiedUnaggregatedAttestation.verify_early_checks env a = .error e) :
    (∃ s l, e = .FutureSlot s l) ∨ (∃ s l, e = .PastSlot s l) ∨
      (∃ b, e = .BeaconChainError b) ∨
      (∃ n, e = .NotExactlyOneAggregationBitSet n) ∨
      (∃ hb as, e = .TooManySkippedSlots hb as) ∨
      (∃ r, e = .UnknownHeadBlock r) := by
  unfold VerifiedUnaggregatedAttestation.verify_early_checks at h
  try dsimp only [] at h
  split at h
  · rename_i e₀ hslot
    rcases verify_propagation_slot_range_error_cases env _ e₀ hslot with
      ⟨s, l, rfl⟩ | ⟨s, l, rfl⟩ | rfl
    · exact Or.inl ⟨s, l, (Except.error.inj h).symm⟩
    · exact Or.inr (Or.inl ⟨s, l, (Except.error.inj h).symm⟩)
    · exact Or.inr (Or.inr (Or.inl ⟨_, (Except.error.inj h).symm⟩))
  · split at h
    · exact Or.inr (Or.inr (Or.inr (Or.inl ⟨_, (Except.error.inj h).symm⟩)))
    · rcases verify_head_block_is_known_error_cases env a
        env.import_max_skip_slots e h with ⟨hb, as, rfl, -⟩ | rfl
      · exact Or.inr (Or.inr (Or.inr (Or.inr (Or.inl ⟨hb, as, rfl⟩))))
      · exact Or.inr (Or.inr (Or.inr (Or.inr (Or.inr ⟨_, rfl⟩))))

theorem unagg_middle_checks_error_cases (env : VEnv) (st : VState)
    (a : Attestation) (ia : IndexedAttestation) (cps : Nat) (sid : Nat)
    (e : Error)
    (h : VerifiedUnaggregatedAttestation.verify_middle_checks env st a ia cps
      sid = .error e) :
    (∃ b, e = .BeaconChainError b) ∨ (∃ r x, e = .InvalidSubnetId r x) ∨
      e = .NotExactlyOneAggregationBitSet 0 ∨
      (∃ i ep, e = .PriorAttestationKnown i ep) := by
  unfold VerifiedUnaggregatedAttestation.verify_middle_checks at h
  split at h
  · exact Or.inl ⟨_, (Except.error.inj h).symm⟩
  · split at h
    · exact Or.inr (Or.inl ⟨_, _, (Except.error.inj h).symm⟩)
    · split at h
      · exact Or.inr (Or.inr (Or.inl (Except.error.inj h).symm))
      · split at h
        · exact Or.inl ⟨_, (Except.error.inj h).symm⟩
        · exact Or.inr (Or.inr (Or.inr ⟨_, _, (Except.error.inj h).symm⟩))
        · simp at h

theorem agg_late_checks_error_cases (env : VEnv) (st : VState)
    (sa : SignedAggregateAndProof) (root : Nat) (e : Error) (st₂ : VState)
    (h : VerifiedAggregatedAttestation.verify_late_checks env st sa root =
      (.error e, st₂)) :
    e = .AttestationAlreadyKnown root ∨ (∃ b, e = .BeaconChainError b) ∨
      (∃ i ep, e = .PriorAttestationKnown i ep) := by
  unfold VerifiedAggregatedAttestation.verify_late_checks at h
  try dsimp only [] at h
  split at h
  · simp only [Prod.mk.injEq, Except.error.injEq] at h
    exact Or.inl h.1.symm
  · split at h
    · simp only [Prod.mk.injEq, Except.error.injEq] at h
      exact Or.inr (Or.inl ⟨_, h.1.symm⟩)
    · simp only [Prod.mk.injEq, Except.error.injEq] at h
      exact Or.inr (Or.inr ⟨_, _, h.1.symm⟩)
    · simp at h

theorem unagg_late_checks_error_cases (env : VEnv) (st : VState)
    (a : Attestation) (vi : Nat) (e : Error) (st₂ : VState)
    (h : VerifiedUnaggregatedAttestation.verify_late_checks env st a vi =
      (.error e, st₂)) :
    (∃ b, e = .BeaconChainError b) ∨
      (∃ i ep, e = .PriorAttestationKnown i ep) := by
  unfold VerifiedUnaggregatedAttestation.verify_late_checks at h
  split at h
  · simp only [Prod.mk.injEq, Except.error.injEq] at h
    exact Or.inl ⟨_, h.1.symm⟩
  · simp only [Prod.mk.injEq, Except.error.injEq] at h
    exact Or.inr ⟨_, _, h.1.symm⟩
  · simp at h

/-! ## Success-inversion and composition lemmas -/

theorem agg_early_checks_ok_inv (env : VEnv) (st : VState)
    (sa : SignedAggregateAndProof) (root : Nat)
    (h : VerifiedAggregatedAttestation.verify_early_checks env st sa = .ok root) :
    root = env.tree_hash sa.message.aggregate ∧
      verify_propagation_slot_range env sa.message.aggregate = .ok () := by
  unfold VerifiedAggregatedAttestation.verify_early_checks at h
  try dsimp only [] at h
  cases hv : verify_propagation_slot_range env sa.message.aggregate with
  | error e => rw [hv] at h; simp at h
  | ok u =>
    rw [hv] at h
    try dsimp only [] at h
    split at h
    · simp at h
    · split at h
      · simp at h
      · simp at h
      · split at h
        · simp at h
        · split at h
          · simp at h
          · cases u
            exact ⟨(Except.ok.inj h).symm, rfl⟩

theorem agg_early_checks_already_known (env : VEnv) (st : VState)
    (sa : SignedAggregateAndProof)
    (hslot : verify_propagation_slot_range env sa.message.aggregate = .ok ())
    (hmem : env.tree_hash sa.message.aggregate ∈ st.observed_attestations) :
    VerifiedAggregatedAttestation.verify_early_checks env st sa =
      .error (.AttestationAlreadyKnown (env.tree_hash sa.message.aggregate)) := by
  unfold VerifiedAggregatedAttestation.verify_early_checks
  dsimp only []
  rw [hslot]
  simp [hmem]

theorem agg_late_checks_ok_inv (env : VEnv) (st : VState)
    (sa : SignedAggregateAndProof) (root : Nat) (u : Unit) (st₂ : VState)
    (h : VerifiedAggregatedAttestation.verify_late_checks env st sa root =
      (.ok u, st₂)) :
    root ∈ st₂.observed_attestations := by
  unfold VerifiedAggregatedAttestation.verify_late_checks at h
  try dsimp only [] at h
  split at h
  · simp at h
  · rename_i roots hobs
    split at h
    · simp at h
    · simp at h
    · simp only [Prod.mk.injEq] at h
      obtain ⟨-, h2⟩ := h
      subst h2
      unfold obs_attestations_observe at hobs
      split at hobs
      · simp at hobs
      · simp only [Prod.mk.injEq] at hobs
        obtain ⟨-, hr⟩ := hobs
        subst hr
        simp

theorem agg_verify_slashable_ok_inv (env : VEnv) (st : VState)
    (sa : SignedAggregateAndProof) (v : VerifiedAggregatedAttestation)
    (st' : VState) (log : List VEffect)
    (h : VerifiedAggregatedAttestation.verify_slashable env st sa =
      (.ok v, st', log)) :
    verify_propagation_slot_range env sa.message.aggregate = .ok () ∧
      env.tree_hash sa.message.aggregate ∈ st'.observed_attestations := by
  unfold VerifiedAggregatedAttestation.verify_slashable at h
  split at h
  · simp at h
  · rename_i root hearly
    obtain ⟨hroot, hslot⟩ := agg_early_checks_ok_inv env st sa root hearly
    subst hroot
    split at h
    · simp at h
    · split at h
      · simp at h
      · simp at h
      · split at h
        · simp at h
        · simp only [Prod.mk.injEq] at h
          obtain ⟨-, h2, -⟩ := h
          subst h2
          exact ⟨hslot, agg_late_checks_ok_inv env _ sa _ _ _ (by assumption)⟩

theorem agg_verify_of_slashable_error (env : VEnv) (st : VState)
    (sa : SignedAggregateAndProof) (si : AttestationSlashInfo) (st' : VState)
    (log : List VEffect)
    (h : VerifiedAggregatedAttestation.verify_slashable env st sa =
      (.error si, st', log)) :
    (VerifiedAggregatedAttestation.verify env st sa).1 = .error si.error := by
  unfold VerifiedAggregatedAttestation.verify
  rw [h]
  simp [process_slash_info_fst]

theorem unagg_verify_of_slashable_error (env : VEnv) (st : VState)
    (a : Attestation) (sid : Nat) (si : AttestationSlashInfo)
    (st' : VState) (log : List VEffect)
    (h : VerifiedUnaggregatedAttestation.verify_slashable env st a sid =
      (.error si, st', log)) :
    (VerifiedUnaggregatedAttestation.verify env st a sid).1 =
      .error si.error := by
  unfold VerifiedUnaggregatedAttestation.verify
  rw [h]
  simp [process_slash_info_fst]

theorem unagg_middle_checks_ok_inv (env : VEnv) (st : VState)
    (a : Attestation) (ia : IndexedAttestation) (cps : Nat) (sid : Nat)
    (vi : Nat)
    (h : VerifiedUnaggregatedAttestation.verify_middle_checks env st a ia cps
      sid = .ok vi) :
    env.compute_subnet ia.data cps = some sid ∧
      ia.attesting_indices.head? = some vi ∧ vi < env.validator_cap := by
  unfold VerifiedUnaggregatedAttestation.verify_middle_checks at h
  split at h
  · simp at h
  · rename_i expected hsub
    split at h
    · simp at h
    · rename_i hsid
      split at h
      · simp at h
      · rename_i vi₀ hhead
        split at h
        · simp at h
        · simp at h
        · rename_i hbeen
          cases h
          unfold obs_has_been_observed at hbeen
          split at hbeen
          · simp at hbeen
          · rename_i hcap
            refine ⟨?_, hhead, by omega⟩
            rw [hsub]
            simp at hsid
            rw [hsid]

theorem unagg_middle_checks_prior_known (env : VEnv) (st : VState)
    (a : Attestation) (ia : IndexedAttestation) (cps : Nat) (sid : Nat)
    (vi : Nat)
    (hsub : env.compute_subnet ia.data cps = some sid)
    (hhead : ia.attesting_indices.head? = some vi)
    (hcap : vi < env.validator_cap)
    (hmem : (a.data.target.epoch, vi) ∈ st.observed_attesters) :
    VerifiedUnaggregatedAttestation.verify_middle_checks env st a ia cps sid =
      .error (.PriorAttestationKnown vi a.data.target.epoch) := by
  simp [VerifiedUnaggregatedAttestation.verify_middle_checks, hsub, hhead,
    obs_has_been_observed, hmem, Nat.not_le.mpr hcap]

theorem unagg_late_checks_ok_inv (env : VEnv) (st : VState)
    (a : Attestation) (vi : Nat) (u : Unit) (st₂ : VState)
    (h : VerifiedUnaggregatedAttestation.verify_late_checks env st a vi =
      (.ok u, st₂)) :
    vi < env.validator_cap ∧
      (a.data.target.epoch, vi) ∈ st₂.observed_attesters ∧
      st₂.shuffling_cache = st.shuffling_cache := by
  unfold VerifiedUnaggregatedAttestation.verify_late_checks at h
  split at h
  · simp at h
  · simp at h
  · rename_i s hobs
    simp only [Prod.mk.injEq] at h
    obtain ⟨-, h2⟩ := h
    subst h2
    unfold obs_observe_validator at hobs
    split at hobs
    · simp at hobs
    · rename_i hcap
      split at hobs
      · simp at hobs
      · simp only [Except.ok.injEq, Prod.mk.injEq] at hobs
        obtain ⟨-, hs⟩ := hobs
        subst hs
        exact ⟨by omega, by simp, rfl⟩

theorem agg_verify_ok_inv (env : VEnv) (st : VState)
    (sa : SignedAggregateAndProof) (v : VerifiedAggregatedAttestation)
    (st' : VState) (log : List VEffect)
    (h : VerifiedAggregatedAttestation.verify env st sa = (.ok v, st', log)) :
    VerifiedAggregatedAttestation.verify_slashable env st sa =
      (.ok v, st', log) := by
  unfold VerifiedAggregatedAttestation.verify at h
  split at h
  · rename_i heq
    simp only [Prod.mk.injEq, Except.ok.injEq] at h
    obtain ⟨h1, h2, h3⟩ := h
    rw [heq, h1, h2, h3]
  · simp at h

theorem unagg_verify_ok_inv (env : VEnv) (st : VState) (a : Attestation)
    (sid : Nat) (v : VerifiedUnaggregatedAttestation) (st' : VState)
    (log : List VEffect)
    (h : VerifiedUnaggregatedAttestation.verify env st a sid =
      (.ok v, st', log)) :
    VerifiedUnaggregatedAttestation.verify_slashable env st a sid =
      (.ok v, st', log) := by
  unfold VerifiedUnaggregatedAttestation.verify at h
  split at h
  · rename_i heq
    simp only [Prod.mk.injEq, Except.ok.injEq] at h
    obtain ⟨h1, h2, h3⟩ := h
    rw [heq, h1, h2, h3]
  · simp at h

theorem unagg_verify_slashable_ok_inv (env : VEnv) (st : VState)
    (a : Attestation) (sid : Nat) (v : VerifiedUnaggregatedAttestation)
    (st' : VState) (log : List VEffect)
    (h : VerifiedUnaggregatedAttestation.verify_slashable env st a sid =
      (.ok v, st', log)) :
    ∃ ia cps vi st₁,
      VerifiedUnaggregatedAttestation.verify_early_checks env a = .ok () ∧
      obtain_indexed_attestation_and_committees_per_slot env st a =
        (.ok (ia, cps), st₁) ∧
      env.compute_subnet ia.data cps = some sid ∧
      ia.attesting_indices.head? = some vi ∧
      vi < env.validator_cap ∧
      (a.data.target.epoch, vi) ∈ st'.observed_attesters ∧
      st'.shuffling_cache = st₁.shuffling_cache := by
  unfold VerifiedUnaggregatedAttestation.verify_slashable at h
  cases hv : VerifiedUnaggregatedAttestation.verify_early_checks env a with
  | error e => rw [hv] at h; simp at h
  | ok u =>
    rw [hv] at h
    cases u
    try dsimp only [] at h
    split at h
    · simp at h
    · rename_i ia₀ cps₀ st₁ hobt
      split at h
      · simp at h
      · rename_i vi hmid
        obtain ⟨hsub, hhead, hcap⟩ :=
          unagg_middle_checks_ok_inv env st₁ a ia₀ cps₀ sid vi hmid
        split at h
        · simp at h
        · split at h
          · simp at h
          · rename_i st₂ hlate
            simp only [Prod.mk.injEq] at h
            obtain ⟨-, h2, -⟩ := h
            subst h2
            obtain ⟨-, hmem, hsh⟩ :=
              unagg_late_checks_ok_inv env st₁ a vi _ st₂ hlate
            exact ⟨ia₀, cps₀, vi, st₁, rfl, by rw [hobt], hsub, hhead, hcap,
              hmem, hsh⟩

theorem agg_second_call (env : VEnv) (st' : VState)
    (sa : SignedAggregateAndProof)
    (hslot : verify_propagation_slot_range env sa.message.aggregate = .ok ())
    (hmem : env.tree_hash sa.message.aggregate ∈ st'.observed_attestations) :
    (VerifiedAggregatedAttestation.verify env st' sa).1 =
      .error (.AttestationAlreadyKnown (env.tree_hash sa.message.aggregate)) := by
  have he := agg_early_checks_already_known env st' sa hslot hmem
  have hsl : VerifiedAggregatedAttestation.verify_slashable env st' sa =
      (.error (.SignatureNotChecked sa.message.aggregate
        (.AttestationAlreadyKnown (env.tree_hash sa.message.aggregate))),
       st', []) := by
    unfold VerifiedAggregatedAttestation.verify_slashable
    rw [he]
  exact agg_verify_of_slashable_error env st' sa _ _ _ hsl

theorem unagg_second_call (env : VEnv) (st st₁ st' : VState) (a : Attestation)
    (sid : Nat) (ia : IndexedAttestation) (cps vi : Nat)
    (hearly : VerifiedUnaggregatedAttestation.verify_early_checks env a = .ok ())
    (hobt : obtain_indexed_attestation_and_committees_per_slot env st a =
      (.ok (ia, cps), st₁))
    (hsub : env.compute_subnet ia.data cps = some sid)
    (hhead : ia.attesting_indices.head? = some vi)
    (hcap : vi < env.validator_cap)
    (hsh : st'.shuffling_cache = st₁.shuffling_cache)
    (hmem : (a.data.target.epoch, vi) ∈ st'.observed_attesters) :
    (VerifiedUnaggregatedAttestation.verify env st' a sid).1 =
      .error (.PriorAttestationKnown vi a.data.target.epoch) := by
  obtain ⟨tb, cc, committee, htb, hsc, hcom, hf⟩ :=
    map_attestation_committee_ok_inv env st a _ (ia, cps) st₁ hobt
  have hobt' : obtain_indexed_attestation_and_committees_per_slot env st' a =
      (.ok (ia, cps), st') := by
    unfold obtain_indexed_attestation_and_committees_per_slot
    rw [map_attestation_committee_hit env st' a _ tb cc committee htb
      (by rw [hsh]; exact hsc) hcom]
    rw [hf]
  have hmid := unagg_middle_checks_prior_known env st' a ia cps sid vi hsub
    hhead hcap hmem
  have hsl : VerifiedUnaggregatedAttestation.verify_slashable env st' a sid =
      (.error (.SignatureNotCheckedIndexed ia
        (.PriorAttestationKnown vi a.data.target.epoch)), st', []) := by
    unfold VerifiedUnaggregatedAttestation.verify_slashable
    rw [hearly]
    dsimp only []
    rw [hobt']
    dsimp only []
    rw [hmid]
  exact unagg_verify_of_slashable_error env st' a sid _ _ _ hsl

/-! ## Concrete sample inputs for witnesses -/

/-- A small concrete environment: four slots per epoch, clock at slot 10
with symmetric tolerance, two known blocks, all signatures valid. -/
def sample_env : VEnv where
  slots_per_epoch := 4
  clock_future := some 10
  clock_past := some 10
  fork_choice := [(7, ⟨8, 100⟩), (5, ⟨8, 100⟩)]
  import_max_skip_slots := some 2
  pubkey_cache_len := 100
  validator_cap := 100
  slasher := true
  tree_hash := fun a => a.data.slot + 1000
  is_aggregator := fun _ _ => some true
  agg_sets_ok := fun _ _ => true
  agg_batch_valid := fun _ _ => true
  att_set_ok := fun _ => true
  att_sig_valid := fun _ => true
  compute_subnet := fun _ _ => some 3
  store := fun r => if r = 100 then some ⟨2, [], 0⟩ else none
  state_committee_cache := fun _ _ => ⟨2, [((8, 1), [10, 42])]⟩

/-- The empty cache state. -/
def state0 : VState := ⟨[], [], [], [], []⟩

/-- A well-formed unaggregated attestation for `sample_env`: slot 8,
committee 1, head block 7, target (epoch 2, root 5), one bit set. -/
def att_one : Attestation := ⟨⟨8, 1, 7, ⟨0, 0⟩, ⟨2, 5⟩⟩, [false, true], 0⟩

/-- A well-formed signed aggregate around `att_one` by aggregator 42. -/
def sagg : SignedAggregateAndProof := ⟨⟨42, att_one, 77⟩, 5⟩

/-- The indexed form of `att_one` under the committee `[10, 42]`. -/
def idx_att : IndexedAttestation := ⟨[42], att_one.data, 0⟩

/-! ## C1 -/

/-- C1: any message — aggregate or unaggregated — accepted by `verify` is
rejected when re-verified against the resulting cache state under the same
environment (in particular the same slot clock), with one of the dedup
errors `AttestationAlreadyKnown`, `AggregatorAlreadyKnown` or
`PriorAttestationKnown`: the successful call inserted the attestation root
and the attester/aggregator index into the observation caches, and the
second call's early (aggregate) or middle (unaggregated) checks find them. -/
theorem verify_ok_then_second_verify_errs (env : VEnv) (st : VState)
    (sa : SignedAggregateAndProof) (v : VerifiedAggregatedAttestation)
    (a : Attestation) (sid : Nat) (vu : VerifiedUnaggregatedAttestation)
    (st₁ st₂ : VState) (log₁ log₂ : List VEffect) :
    (VerifiedAggregatedAttestation.verify env st sa = (.ok v, st₁, log₁) →
      ∃ e, (VerifiedAggregatedAttestation.verify env st₁ sa).1 = .error e ∧
        ((∃ r, e = .AttestationAlreadyKnown r) ∨
          (∃ i, e = .AggregatorAlreadyKnown i) ∨
          (∃ i ep, e = .PriorAttestationKnown i ep))) ∧
    (VerifiedUnaggregatedAttestation.verify env st a sid =
        (.ok vu, st₂, log₂) →
      ∃ e, (VerifiedUnaggregatedAttestation.verify env st₂ a sid).1 =
          .error e ∧
        ((∃ r, e = .AttestationAlreadyKnown r) ∨
          (∃ i, e = .AggregatorAlreadyKnown i) ∨
          (∃ i ep, e = .PriorAttestationKnown i ep))) := by
  constructor
  · intro h
    obtain ⟨hslot, hmem⟩ := agg_verify_slashable_ok_inv env st sa v st₁ log₁
      (agg_verify_ok_inv env st sa v st₁ log₁ h)
    exact ⟨_, agg_second_call env st₁ sa hslot hmem, Or.inl ⟨_, rfl⟩⟩
  · intro h
    obtain ⟨ia, cps, vi, stm, hearly, hobt, hsub, hhead, hcap, hmem, hsh⟩ :=
      unagg_verify_slashable_ok_inv env st a sid vu st₂ log₂
        (unagg_verify_ok_inv env st a sid vu st₂ log₂ h)
    exact ⟨_, unagg_second_call env st stm st₂ a sid ia cps vi hearly hobt
      hsub hhead hcap hsh hmem, Or.inr (Or.inr ⟨_, _, rfl⟩)⟩

/-- C1 witness: both replay branches at the concrete sample message. -/
theorem verify_ok_then_second_verify_errs_witness :
    (∃ e, (VerifiedAggregatedAttestation.verify sample_env
        ⟨[1008], [(2, 42)], [], [((2, 5), ⟨2, [((8, 1), [10, 42])]⟩)], []⟩
        sagg).1 = .error e ∧
      ((∃ r, e = .AttestationAlreadyKnown r) ∨
        (∃ i, e = .AggregatorAlreadyKnown i) ∨
        (∃ i ep, e = .PriorAttestationKnown i ep))) ∧
    (∃ e, (VerifiedUnaggregatedAttestation.verify sample_env
        ⟨[], [], [(2, 42)], [((2, 5), ⟨2, [((8, 1), [10, 42])]⟩)], []⟩
        att_one 3).1 = .error e ∧
      ((∃ r, e = .AttestationAlreadyKnown r) ∨
        (∃ i, e = .AggregatorAlreadyKnown i) ∨
        (∃ i ep, e = .PriorAttestationKnown i ep))) :=
  ⟨(verify_ok_then_second_verify_errs sample_env state0 sagg ⟨sagg, idx_att⟩
      att_one 3 ⟨att_one, idx_att⟩
      ⟨[1008], [(2, 42)], [], [((2, 5), ⟨2, [((8, 1), [10, 42])]⟩)], []⟩
      ⟨[], [], [(2, 42)], [((2, 5), ⟨2, [((8, 1), [10, 42])]⟩)], []⟩
      [.sigSetBuilt, .blsBatchVerify] [.sigSetBuilt, .singleSigVerify]).1
    (by decide),
   (verify_ok_then_second_verify_errs sample_env state0 sagg ⟨sagg, idx_att⟩
      att_one 3 ⟨att_one, idx_att⟩
      ⟨[1008], [(2, 42)], [], [((2, 5), ⟨2, [((8, 1), [10, 42])]⟩)], []⟩
      ⟨[], [], [(2, 42)], [((2, 5), ⟨2, [((8, 1), [10, 42])]⟩)], []⟩
      [.sigSetBuilt, .blsBatchVerify] [.sigSetBuilt, .singleSigVerify]).2
    (by decide)⟩

/-! ## C2 -/

theorem agg_verify_error_inv (env : VEnv) (st : VState)
    (sa : SignedAggregateAndProof) (e : Error) (st₁ : VState)
    (log₁ : List VEffect)
    (h : VerifiedAggregatedAttestation.verify env st sa =
      (.error e, st₁, log₁)) :
    ∃ si st' log, VerifiedAggregatedAttestation.verify_slashable env st sa =
        (.error si, st', log) ∧ si.error = e ∧
      st₁ = (process_slash_info env st' si).2.1 := by
  unfold VerifiedAggregatedAttestation.verify at h
  split at h
  · simp at h
  · rename_i si st' log heq
    simp only [Prod.mk.injEq, Except.error.injEq] at h
    obtain ⟨h1, h2, -⟩ := h
    exact ⟨si, st', log, heq, by rw [← h1, process_slash_info_fst], h2.symm⟩

theorem unagg_verify_error_inv (env : VEnv) (st : VState) (a : Attestation)
    (sid : Nat) (e : Error) (st₂ : VState) (log₂ : List VEffect)
    (h : VerifiedUnaggregatedAttestation.verify env st a sid =
      (.error e, st₂, log₂)) :
    ∃ si st' log,
      VerifiedUnaggregatedAttestation.verify_slashable env st a sid =
        (.error si, st', log) ∧ si.error = e ∧
      st₂ = (process_slash_info env st' si).2.1 := by
  unfold VerifiedUnaggregatedAttestation.verify at h
  split at h
  · simp at h
  · rename_i si st' log heq
    simp only [Prod.mk.injEq, Except.error.injEq] at h
    obtain ⟨h1, h2, -⟩ := h
    exact ⟨si, st', log, heq, by rw [← h1, process_slash_info_fst], h2.symm⟩

theorem agg_slashable_invalid_signature_inv (env : VEnv) (st : VState)
    (sa : SignedAggregateAndProof) (si : AttestationSlashInfo) (st' : VState)
    (log : List VEffect)
    (h : VerifiedAggregatedAttestation.verify_slashable env st sa =
      (.error si, st', log))
    (he : si.error = .InvalidSignature) :
    si = .SignatureInvalid .InvalidSignature ∧
      st'.observed_attestations = st.observed_attestations ∧
      st'.observed_aggregators = st.observed_aggregators ∧
      st'.observed_attesters = st.observed_attesters ∧
      st'.slasher_received = st.slasher_received := by
  unfold VerifiedAggregatedAttestation.verify_slashable at h
  rcases hearly : VerifiedAggregatedAttestation.verify_early_checks env st sa
    with e₀ | root
  · rw [hearly] at h
    try dsimp only [] at h
    simp only [Prod.mk.injEq, Except.error.injEq] at h
    obtain ⟨h1, -, -⟩ := h
    rw [← h1] at he
    simp only [AttestationSlashInfo.error] at he
    subst he
    rcases agg_early_checks_error_cases env st sa _ hearly with
      ⟨s, l, hh⟩ | ⟨s, l, hh⟩ | ⟨b, hh⟩ | ⟨r, hh⟩ | ⟨i, hh⟩ | ⟨i, hh⟩ |
      ⟨r, hh⟩ | hh <;> simp at hh
  · rw [hearly] at h
    try dsimp only [] at h
    rcases hmap : map_attestation_committee env st sa.message.aggregate
        (VerifiedAggregatedAttestation.committee_transform env sa) with
      ⟨mr, mst⟩
    rw [hmap] at h
    rcases mr with e₀ | ia₀
    · try dsimp only [] at h
      simp only [Prod.mk.injEq, Except.error.injEq] at h
      obtain ⟨h1, -, -⟩ := h
      rw [← h1] at he
      simp only [AttestationSlashInfo.error] at he
      subst he
      rcases map_attestation_committee_error_cases env st
        sa.message.aggregate _ _ _ hmap with
        ⟨r, hh⟩ | ⟨sl, i, hh⟩ | ⟨b, hh⟩ | ⟨c, n, hh⟩
      · simp at hh
      · simp at hh
      · simp at hh
      · rcases committee_transform_error_cases env sa c n _ hh with
          ⟨b, hg⟩ | ⟨i, hg⟩ | ⟨i, hg⟩ <;> simp at hg
    · try dsimp only [] at h
      rcases hsig : verify_signed_aggregate_signatures env sa ia₀ with
        ⟨sr, slog⟩
      rw [hsig] at h
      rcases sr with e₀ | b
      · try dsimp only [] at h
        simp only [Prod.mk.injEq, Except.error.injEq] at h
        obtain ⟨h1, -, -⟩ := h
        rw [← h1] at he
        simp only [AttestationSlashInfo.error] at he
        subst he
        rcases verify_signed_aggregate_signatures_error_cases env sa ia₀ _ _
          hsig with hh | hh <;> simp at hh
      · rcases b with - | -
        · try dsimp only [] at h
          simp only [Prod.mk.injEq, Except.error.injEq] at h
          obtain ⟨h1, h2, -⟩ := h
          subst h2
          obtain ⟨f1, f2, f3, f4⟩ := map_attestation_committee_frame env st
            sa.message.aggregate _ _ mst hmap
          exact ⟨h1.symm, f1, f2, f3, f4⟩
        · try dsimp only [] at h
          rcases hlate : VerifiedAggregatedAttestation.verify_late_checks env
            mst sa root with ⟨lr, lst⟩
          rw [hlate] at h
          rcases lr with e₀ | u
          · try dsimp only [] at h
            simp only [Prod.mk.injEq, Except.error.injEq] at h
            obtain ⟨h1, -, -⟩ := h
            rw [← h1] at he
            simp only [AttestationSlashInfo.error] at he
            subst he
            rcases agg_late_checks_error_cases env mst sa root _ lst hlate
              with hh | ⟨b, hh⟩ | ⟨i, ep, hh⟩ <;> simp at hh
          · simp at h

theorem unagg_slashable_invalid_signature_inv (env : VEnv) (st : VState)
    (a : Attestation) (sid : Nat) (si : AttestationSlashInfo)
    (st' : VState) (log : List VEffect)
    (h : VerifiedUnaggregatedAttestation.verify_slashable env st a sid =
      (.error si, st', log))
    (he : si.error = .InvalidSignature) :
    si = .SignatureInvalid .InvalidSignature ∧
      st'.observed_attestations = st.observed_attestations ∧
      st'.observed_aggregators = st.observed_aggregators ∧
      st'.observed_attesters = st.observed_attesters ∧
      st'.slasher_received = st.slasher_received := by
  unfold VerifiedUnaggregatedAttestation.verify_slashable at h
  rcases hearly : VerifiedUnaggregatedAttestation.verify_early_checks env a
    with e₀ | u
  · rw [hearly] at h
    try dsimp only [] at h
    simp only [Prod.mk.injEq, Except.error.injEq] at h
    obtain ⟨h1, -, -⟩ := h
    rw [← h1] at he
    simp only [AttestationSlashInfo.error] at he
    subst he
    rcases unagg_early_checks_error_cases env a _ hearly with
      ⟨s, l, hh⟩ | ⟨s, l, hh⟩ | ⟨b, hh⟩ | ⟨n, hh⟩ | ⟨hb, as, hh⟩ |
      ⟨r, hh⟩ <;> simp at hh
  · rw [hearly] at h
    try dsimp only [] at h
    rcases hobt : obtain_indexed_attestation_and_committees_per_slot env st a
      with ⟨mr, mst⟩
    rw [hobt] at h
    rcases mr with e₀ | p
    · try dsimp only [] at h
      simp only [Prod.mk.injEq, Except.error.injEq] at h
      obtain ⟨h1, -, -⟩ := h
      rw [← h1] at he
      simp only [AttestationSlashInfo.error] at he
      subst he
      rcases map_attestation_committee_error_cases env st a _ _ _ hobt with
        ⟨r, hh⟩ | ⟨sl, i, hh⟩ | ⟨b, hh⟩ | ⟨c, n, hh⟩
      · simp at hh
      · simp at hh
      · simp at hh
      · try dsimp only [] at hh
        split at hh
        · simp at hh
        · exact absurd (Except.error.inj hh).symm (by simp)
    · try dsimp only [] at h
      rcases hmid : VerifiedUnaggregatedAttestation.verify_middle_checks env
        mst a p.1 p.2 sid with e₀ | vi
      rotate_left
      · rw [hmid] at h
        try dsimp only [] at h
        rcases hsig : verify_attestation_signature env p.1 with ⟨sr, slog⟩
        rw [hsig] at h
        rcases sr with e₀ | u₀
        · try dsimp only [] at h
          simp only [Prod.mk.injEq, Except.error.injEq] at h
          obtain ⟨h1, h2, -⟩ := h
          subst h2
          rw [← h1] at he
          simp only [AttestationSlashInfo.error] at he
          subst he
          obtain ⟨f1, f2, f3, f4⟩ := map_attestation_committee_frame env st a
            _ _ mst hobt
          exact ⟨h1.symm ▸ rfl, f1, f2, f3, f4⟩
        · try dsimp only [] at h
          rcases hlate : VerifiedUnaggregatedAttestation.verify_late_checks
            env mst a vi with ⟨lr, lst⟩
          rw [hlate] at h
          rcases lr with e₀ | u₁
          · try dsimp only [] at h
            simp only [Prod.mk.injEq, Except.error.injEq] at h
            obtain ⟨h1, -, -⟩ := h
            rw [← h1] at he
            simp only [AttestationSlashInfo.error] at he
            subst he
            rcases unagg_late_checks_error_cases env mst a vi _ lst hlate
              with ⟨b, hh⟩ | ⟨i, ep, hh⟩ <;> simp at hh
          · simp at h
      · rw [hmid] at h
        try dsimp only [] at h
        simp only [Prod.mk.injEq, Except.error.injEq] at h
        obtain ⟨h1, -, -⟩ := h
        rw [← h1] at he
        simp only [AttestationSlashInfo.error] at he
        subst he
        rcases unagg_middle_checks_error_cases env mst a p.1 p.2 sid _ hmid
          with ⟨b, hh⟩ | ⟨r, x, hh⟩ | hh | ⟨i, ep, hh⟩ <;> simp at hh

/-- `sample_env` with every signature declared invalid, so verification
reaches the signature stage and fails there. -/
def sample_env_badsig : VEnv :=
  { sample_env with
    agg_batch_valid := fun _ _ => false
    att_sig_valid := fun _ => false }

/-- C2: a verification that fails with `InvalidSignature` leaves every
observation cache (observed-attestations, observed-aggregators,
observed-attesters) exactly as it found it, for both pipelines: observation
writes happen only in the late checks, which run only after signature
verification has succeeded, and a signature failure returns before any
insert (and also never reaches the slasher sink). -/
theorem invalid_signature_no_observation_writes (env : VEnv) (st : VState)
    (sa : SignedAggregateAndProof) (a : Attestation) (sid : Nat)
    (st₁ st₂ : VState) (log₁ log₂ : List VEffect) :
    (VerifiedAggregatedAttestation.verify env st sa =
        (.error .InvalidSignature, st₁, log₁) →
      st₁.observed_attestations = st.observed_attestations ∧
      st₁.observed_aggregators = st.observed_aggregators ∧
      st₁.observed_attesters = st.observed_attesters ∧
      st₁.slasher_received = st.slasher_received) ∧
    (VerifiedUnaggregatedAttestation.verify env st a sid =
        (.error .InvalidSignature, st₂, log₂) →
      st₂.observed_attestations = st.observed_attestations ∧
      st₂.observed_aggregators = st.observed_aggregators ∧
      st₂.observed_attesters = st.observed_attesters ∧
      st₂.slasher_received = st.slasher_received) := by
  constructor
  · intro h
    obtain ⟨si, st', log, hsl, he, hst⟩ :=
      agg_verify_error_inv env st sa _ st₁ log₁ h
    obtain ⟨hsi, f1, f2, f3, f4⟩ :=
      agg_slashable_invalid_signature_inv env st sa si st' log hsl he
    subst hsi
    rw [process_slash_info_sig_invalid] at hst
    subst hst
    exact ⟨f1, f2, f3, f4⟩
  · intro h
    obtain ⟨si, st', log, hsl, he, hst⟩ :=
      unagg_verify_error_inv env st a sid _ st₂ log₂ h
    obtain ⟨hsi, f1, f2, f3, f4⟩ :=
      unagg_slashable_invalid_signature_inv env st a sid si st' log hsl he
    subst hsi
    rw [process_slash_info_sig_invalid] at hst
    subst hst
    exact ⟨f1, f2, f3, f4⟩

/-- C2 witness: a bad-signature environment at the concrete sample inputs. -/
theorem invalid_signature_no_observation_writes_witness :
    ((VerifiedAggregatedAttestation.verify sample_env_badsig state0
        sagg).2.1.observed_attestations = state0.observed_attestations ∧
      (VerifiedAggregatedAttestation.verify sample_env_badsig state0
        sagg).2.1.observed_aggregators = state0.observed_aggregators ∧
      (VerifiedAggregatedAttestation.verify sample_env_badsig state0
        sagg).2.1.observed_attesters = state0.observed_attesters ∧
      (VerifiedAggregatedAttestation.verify sample_env_badsig state0
        sagg).2.1.slasher_received = state0.slasher_received) ∧
    ((VerifiedUnaggregatedAttestation.verify sample_env_badsig state0 att_one
        3).2.1.observed_attestations = state0.observed_attestations ∧
      (VerifiedUnaggregatedAttestation.verify sample_env_badsig state0
        att_one 3).2.1.observed_aggregators = state0.observed_aggregators ∧
      (VerifiedUnaggregatedAttestation.verify sample_env_badsig state0
        att_one 3).2.1.observed_attesters = state0.observed_attesters ∧
      (VerifiedUnaggregatedAttestation.verify sample_env_badsig state0
        att_one 3).2.1.slasher_received = state0.slasher_received) :=
  ⟨(invalid_signature_no_observation_writes sample_env_badsig state0 sagg
      att_one 3
      ⟨[], [], [], [((2, 5), ⟨2, [((8, 1), [10, 42])]⟩)], []⟩
      ⟨[], [], [], [((2, 5), ⟨2, [((8, 1), [10, 42])]⟩)], []⟩
      [.sigSetBuilt, .blsBatchVerify] [.sigSetBuilt, .singleSigVerify]).1
    (by decide),
   (invalid_signature_no_observation_writes sample_env_badsig state0 sagg
      att_one 3
      ⟨[], [], [], [((2, 5), ⟨2, [((8, 1), [10, 42])]⟩)], []⟩
      ⟨[], [], [], [((2, 5), ⟨2, [((8, 1), [10, 42])]⟩)], []⟩
      [.sigSetBuilt, .blsBatchVerify] [.sigSetBuilt, .singleSigVerify]).2
    (by decide)⟩

/-! ## C3 -/

/-- C3: `verify_propagation_slot_range` fails `FutureSlot` exactly when the
attestation slot exceeds the future-tolerance clock reading; otherwise it
fails `PastSlot` exactly when the slot is below the past-tolerance reading
minus `slots_per_epoch` (`Nat` subtraction saturating at zero, as `Slot`
subtraction does); both boundary slots pass; and a clock read failure
surfaces as the internal `BeaconChainError UnableToReadSlot`. -/
theorem propagation_slot_range_characterization (env : VEnv)
    (a : Attestation) (f p : Nat) :
    (env.clock_future = none →
      verify_propagation_slot_range env a =
        .error (.BeaconChainError .UnableToReadSlot)) ∧
    (env.clock_future = some f → a.data.slot ≤ f → env.clock_past = none →
      verify_propagation_slot_range env a =
        .error (.BeaconChainError .UnableToReadSlot)) ∧
    (env.clock_future = some f → env.clock_past = some p →
      ((verify_propagation_slot_range env a =
          .error (.FutureSlot a.data.slot f)) ↔ f < a.data.slot) ∧
      ((verify_propagation_slot_range env a =
          .error (.PastSlot a.data.slot (p - env.slots_per_epoch))) ↔
        (a.data.slot ≤ f ∧ a.data.slot < p - env.slots_per_epoch)) ∧
      ((verify_propagation_slot_range env a = .ok ()) ↔
        (a.data.slot ≤ f ∧ p - env.slots_per_epoch ≤ a.data.slot)) ∧
      (a.data.slot = f → p ≤ f →
        verify_propagation_slot_range env a = .ok ()) ∧
      (a.data.slot = p - env.slots_per_epoch → a.data.slot ≤ f →
        verify_propagation_slot_range env a = .ok ())) := by
  refine ⟨?_, ?_, ?_⟩
  · intro hf
    simp [verify_propagation_slot_range, hf]
  · intro hf hle hp
    simp [verify_propagation_slot_range, hf, hp, Nat.not_lt.mpr hle]
  · intro hf hp
    simp only [verify_propagation_slot_range, hf, hp]
    by_cases h1 : f < a.data.slot
    · rw [if_pos (by omega : a.data.slot > f)]
      refine ⟨by simp [h1], ⟨fun hh => by simp at hh, ?_⟩,
        ⟨fun hh => by simp at hh, ?_⟩, ?_, ?_⟩
      · intro hh
        exfalso
        omega
      · intro hh
        exfalso
        omega
      · intro hh hh2
        exfalso
        omega
      · intro hh hh2
        exfalso
        omega
    · rw [if_neg (by omega : ¬a.data.slot > f)]
      by_cases h2 : a.data.slot < p - env.slots_per_epoch
      · rw [if_pos h2]
        refine ⟨⟨fun hh => by simp at hh, ?_⟩,
          ⟨fun _ => ⟨by omega, h2⟩, fun _ => rfl⟩,
          ⟨fun hh => by simp at hh, ?_⟩, ?_, ?_⟩
        · intro hh
          exfalso
          omega
        · intro hh
          exfalso
          omega
        · intro hh hh2
          exfalso
          omega
        · intro hh hh2
          exfalso
          omega
      · rw [if_neg h2]
        refine ⟨⟨fun hh => by simp at hh, ?_⟩,
          ⟨fun hh => by simp at hh, ?_⟩,
          ⟨fun _ => ⟨by omega, by omega⟩, fun _ => rfl⟩,
          fun _ _ => rfl, fun _ _ => rfl⟩
        · intro hh
          exfalso
          omega
        · intro hh
          exfalso
          omega

/-- C3 witness: the characterization at slot 8 under the sample clock. -/
theorem propagation_slot_range_characterization_witness :
    (verify_propagation_slot_range sample_env att_one = .ok ()) ∧
    ((verify_propagation_slot_range sample_env att_one =
        .error (.FutureSlot att_one.data.slot 10)) ↔ 10 < att_one.data.slot) :=
  ⟨((propagation_slot_range_characterization sample_env att_one
      10 10).2.2 rfl rfl).2.2.1.mpr (by decide),
   ((propagation_slot_range_characterization sample_env att_one
      10 10).2.2 rfl rfl).1⟩

/-! ## C4 -/

theorem process_slash_info_log_mem (env : VEnv) (st : VState)
    (si : AttestationSlashInfo) (x : VEffect)
    (hx : x ∈ (process_slash_info env st si).2.2) : x = .slasherAccept := by
  unfold process_slash_info at hx
  by_cases h : env.slasher <;>
    simp only [h, Bool.false_eq_true, if_true, if_false, ite_true,
      ite_false] at hx <;>
    cases si <;> simp_all
  split at hx <;> simp_all

/-- An attestation with two aggregation bits set, at a future slot. -/
def att_two : Attestation := ⟨⟨11, 1, 7, ⟨0, 0⟩, ⟨2, 5⟩⟩, [true, true], 0⟩

/-- C4 counterexample: an attestation with two bits set whose slot is in the
future is rejected with `FutureSlot`, not
`NotExactlyOneAggregationBitSet 2`: the slot-range check runs first, so the
claim does not hold for every attestation with a bad bit count. -/
theorem not_exactly_one_bit_counterexample :
    att_two.aggregation_bits.count true = 2 ∧
    (VerifiedUnaggregatedAttestation.verify sample_env state0 att_two 3).1 =
      .error (.FutureSlot 11 10) ∧
    (VerifiedUnaggregatedAttestation.verify sample_env state0 att_two 3).1 ≠
      .error (.NotExactlyOneAggregationBitSet 2) := by decide

/-- C4 (amended): for every attestation that passes the propagation
slot-range check and whose aggregation bits have a set count `n ≠ 1`,
`verify_unaggregated` returns `NotExactlyOneAggregationBitSet n` with `n`
the actual count, and signature verification is never attempted (no
signature set is even built). -/
theorem not_exactly_one_bit_rejected (env : VEnv) (st : VState)
    (a : Attestation) (sid : Nat) (n : Nat)
    (hslot : verify_propagation_slot_range env a = .ok ())
    (hn : a.aggregation_bits.count true = n) (hne : n ≠ 1) :
    (VerifiedUnaggregatedAttestation.verify env st a sid).1 =
      .error (.NotExactlyOneAggregationBitSet n) ∧
    VEffect.singleSigVerify ∉
      (VerifiedUnaggregatedAttestation.verify env st a sid).2.2 ∧
    VEffect.sigSetBuilt ∉
      (VerifiedUnaggregatedAttestation.verify env st a sid).2.2 := by
  have hearly : VerifiedUnaggregatedAttestation.verify_early_checks env a =
      .error (.NotExactlyOneAggregationBitSet n) := by
    unfold VerifiedUnaggregatedAttestation.verify_early_checks
    rw [hslot]
    dsimp only []
    rw [hn]
    simp [hne]
  have hsl : VerifiedUnaggregatedAttestation.verify_slashable env st a sid =
      (.error (.SignatureNotChecked a (.NotExactlyOneAggregationBitSet n)),
       st, []) := by
    unfold VerifiedUnaggregatedAttestation.verify_slashable
    rw [hearly]
  unfold VerifiedUnaggregatedAttestation.verify
  rw [hsl]
  refine ⟨by simp [process_slash_info_fst, AttestationSlashInfo.error],
    ?_, ?_⟩ <;>
  · simp only [List.nil_append]
    intro hx
    exact absurd (process_slash_info_log_mem env st _ _ hx) (by simp)

/-- C4 witness: the amended statement at a two-bit attestation in range. -/
theorem not_exactly_one_bit_rejected_witness :
    (VerifiedUnaggregatedAttestation.verify sample_env state0
      ⟨⟨8, 1, 7, ⟨0, 0⟩, ⟨2, 5⟩⟩, [true, true], 0⟩ 3).1 =
      .error (.NotExactlyOneAggregationBitSet 2) ∧
    VEffect.singleSigVerify ∉
      (VerifiedUnaggregatedAttestation.verify sample_env state0
        ⟨⟨8, 1, 7, ⟨0, 0⟩, ⟨2, 5⟩⟩, [true, true], 0⟩ 3).2.2 ∧
    VEffect.sigSetBuilt ∉
      (VerifiedUnaggregatedAttestation.verify sample_env state0
        ⟨⟨8, 1, 7, ⟨0, 0⟩, ⟨2, 5⟩⟩, [true, true], 0⟩ 3).2.2 :=
  not_exactly_one_bit_rejected sample_env state0
    ⟨⟨8, 1, 7, ⟨0, 0⟩, ⟨2, 5⟩⟩, [true, true], 0⟩ 3 2 (by decide) (by decide)
    (by decide)

/-! ## C10 -/

/-- C10: `verify_middle_checks` never takes an unchecked index into
`attesting_indices`: the sole-attester extraction is by `head?` with an
explicit fallback, so when the derived indexed attestation has no attesting
indices (and the subnet check passes, which runs first) the result is the
error `NotExactlyOneAggregationBitSet 0` — the pipeline is total in the
number of attesting indices. -/
theorem middle_checks_empty_indices_total (env : VEnv) (st : VState)
    (a : Attestation) (ia : IndexedAttestation) (cps : Nat) (sid : Nat)
    (hempty : ia.attesting_indices = [])
    (hsub : env.compute_subnet ia.data cps = some sid) :
    VerifiedUnaggregatedAttestation.verify_middle_checks env st a ia cps sid =
      .error (.NotExactlyOneAggregationBitSet 0) := by
  unfold VerifiedUnaggregatedAttestation.verify_middle_checks
  rw [hsub]
  simp [hempty]

/-- C10 witness: the empty-indexed attestation at concrete inputs. -/
theorem middle_checks_empty_indices_total_witness :
    VerifiedUnaggregatedAttestation.verify_middle_checks sample_env state0
      att_one ⟨[], att_one.data, 0⟩ 2 3 =
      .error (.NotExactlyOneAggregationBitSet 0) :=
  middle_checks_empty_indices_total sample_env state0 att_one
    ⟨[], att_one.data, 0⟩ 2 3 (by decide) (by decide)

/-! ## C5 -/

/-- `sample_env` whose selection-proof lottery always fails. -/
def sample_env_notelected : VEnv :=
  { sample_env with is_aggregator := fun _ _ => some false }

/-- C5: for an aggregate that passes the early checks and whose committee
resolves, a selection proof that does not elect the aggregator for the
committee's size makes `verify_aggregate` return
`InvalidSelectionProof{aggregator_index}`, and the BLS batch verification is
never performed (no signature set is built). No committee-membership
hypothesis is needed: the eligibility test is evaluated before the
aggregator-in-committee test, so this holds even when the aggregator is not
in the committee. -/
theorem invalid_selection_proof_before_bls (env : VEnv) (st st₁ : VState)
    (sa : SignedAggregateAndProof) (root : Nat) (c : List Nat) (n : Nat)
    (hearly : VerifiedAggregatedAttestation.verify_early_checks env st sa =
      .ok root)
    (hres : map_attestation_committee env st sa.message.aggregate
      (fun c n => .ok (c, n)) = (.ok (c, n), st₁))
    (hsel : env.is_aggregator sa.message.selection_proof c.length =
      some false) :
    (VerifiedAggregatedAttestation.verify env st sa).1 =
      .error (.InvalidSelectionProof sa.message.aggregator_index) ∧
    VEffect.blsBatchVerify ∉
      (VerifiedAggregatedAttestation.verify env st sa).2.2 ∧
    VEffect.sigSetBuilt ∉
      (VerifiedAggregatedAttestation.verify env st sa).2.2 := by
  have hmap : map_attestation_committee env st sa.message.aggregate
      (VerifiedAggregatedAttestation.committee_transform env sa) =
      (.error (.InvalidSelectionProof sa.message.aggregator_index), st₁) := by
    rw [map_attestation_committee_split env st sa.message.aggregate
      (VerifiedAggregatedAttestation.committee_transform env sa), hres]
    unfold VerifiedAggregatedAttestation.committee_transform
    dsimp only []
    rw [hsel]
  have hsl : VerifiedAggregatedAttestation.verify_slashable env st sa =
      (.error (.SignatureNotChecked sa.message.aggregate
        (.InvalidSelectionProof sa.message.aggregator_index)), st₁, []) := by
    unfold VerifiedAggregatedAttestation.verify_slashable
    rw [hearly]
    dsimp only []
    rw [hmap]
  unfold VerifiedAggregatedAttestation.verify
  rw [hsl]
  refine ⟨by simp [process_slash_info_fst, AttestationSlashInfo.error],
    ?_, ?_⟩ <;>
  · simp only [List.nil_append]
    intro hx
    exact absurd (process_slash_info_log_mem env st₁ _ _ hx) (by simp)

/-- C5 witness: the not-elected environment at the concrete aggregate. -/
theorem invalid_selection_proof_before_bls_witness :
    (VerifiedAggregatedAttestation.verify sample_env_notelected state0
        sagg).1 = .error (.InvalidSelectionProof 42) ∧
    VEffect.blsBatchVerify ∉
      (VerifiedAggregatedAttestation.verify sample_env_notelected state0
        sagg).2.2 ∧
    VEffect.sigSetBuilt ∉
      (VerifiedAggregatedAttestation.verify sample_env_notelected state0
        sagg).2.2 :=
  invalid_selection_proof_before_bls sample_env_notelected state0
    ⟨[], [], [], [((2, 5), ⟨2, [((8, 1), [10, 42])]⟩)], []⟩ sagg 1008
    [10, 42] 2 (by decide) (by decide) (by decide)

/-! ## C9 -/

/-- `sample_env` with a pubkey cache shorter than the aggregator index. -/
def sample_env_shortpk : VEnv := { sample_env with pubkey_cache_len := 10 }

/-- C9: a signed aggregate that reaches the signature stage with
`aggregator_index ≥ pubkey_cache_len` fails
`AggregatorPubkeyUnknown(aggregator_index)` before any signature set is
constructed (the returned effect log is empty); `verify_slashable`
classifies this as `SignatureInvalid`, so the aggregate never reaches the
slasher sink even though no signature was actually checked. -/
theorem aggregator_pubkey_unknown_not_slashed (env : VEnv) (st st₁ : VState)
    (sa : SignedAggregateAndProof) (root : Nat) (ia : IndexedAttestation)
    (hearly : VerifiedAggregatedAttestation.verify_early_checks env st sa =
      .ok root)
    (hmap : map_attestation_committee env st sa.message.aggregate
      (VerifiedAggregatedAttestation.committee_transform env sa) =
      (.ok ia, st₁))
    (hlen : env.pubkey_cache_len ≤ sa.message.aggregator_index) :
    verify_signed_aggregate_signatures env sa ia =
      (.error (.AggregatorPubkeyUnknown sa.message.aggregator_index), []) ∧
    VerifiedAggregatedAttestation.verify_slashable env st sa =
      (.error (.SignatureInvalid
        (.AggregatorPubkeyUnknown sa.message.aggregator_index)), st₁, []) ∧
    (VerifiedAggregatedAttestation.verify env st sa).1 =
      .error (.AggregatorPubkeyUnknown sa.message.aggregator_index) ∧
    (VerifiedAggregatedAttestation.verify env st sa).2.1.slasher_received =
      st.slasher_received ∧
    VEffect.sigSetBuilt ∉
      (VerifiedAggregatedAttestation.verify env st sa).2.2 := by
  have hsig : verify_signed_aggregate_signatures env sa ia =
      (.error (.AggregatorPubkeyUnknown sa.message.aggregator_index), []) := by
    unfold verify_signed_aggregate_signatures
    dsimp only []
    rw [if_pos hlen]
  have hsl : VerifiedAggregatedAttestation.verify_slashable env st sa =
      (.error (.SignatureInvalid
        (.AggregatorPubkeyUnknown sa.message.aggregator_index)), st₁, []) := by
    unfold VerifiedAggregatedAttestation.verify_slashable
    rw [hearly]
    dsimp only []
    rw [hmap]
    dsimp only []
    rw [hsig]
  refine ⟨hsig, hsl, ?_, ?_, ?_⟩ <;>
    unfold VerifiedAggregatedAttestation.verify <;>
    rw [hsl] <;>
    simp only [process_slash_info_sig_invalid, List.nil_append]
  · exact (map_attestation_committee_frame env st sa.message.aggregate _ _
      st₁ hmap).2.2.2
  · simp

/-- C9 witness: aggregator 42 against a 10-entry pubkey cache. -/
theorem aggregator_pubkey_unknown_not_slashed_witness :
    verify_signed_aggregate_signatures sample_env_shortpk sagg idx_att =
      (.error (.AggregatorPubkeyUnknown 42), []) ∧
    VerifiedAggregatedAttestation.verify_slashable sample_env_shortpk state0
      sagg = (.error (.SignatureInvalid (.AggregatorPubkeyUnknown 42)),
        ⟨[], [], [], [((2, 5), ⟨2, [((8, 1), [10, 42])]⟩)], []⟩, []) ∧
    (VerifiedAggregatedAttestation.verify sample_env_shortpk state0 sagg).1 =
      .error (.AggregatorPubkeyUnknown 42) ∧
    (VerifiedAggregatedAttestation.verify sample_env_shortpk state0
      sagg).2.1.slasher_received = state0.slasher_received ∧
    VEffect.sigSetBuilt ∉
      (VerifiedAggregatedAttestation.verify sample_env_shortpk state0
        sagg).2.2 :=
  aggregator_pubkey_unknown_not_slashed sample_env_shortpk state0
    ⟨[], [], [], [((2, 5), ⟨2, [((8, 1), [10, 42])]⟩)], []⟩ sagg 1008 idx_att
    (by decide) (by decide) (by decide)

/-! ## C6 -/

theorem agg_slashable_error_not_tms (env : VEnv) (st : VState)
    (sa : SignedAggregateAndProof) (si : AttestationSlashInfo) (st' : VState)
    (log : List VEffect) (hb as : Nat)
    (h : VerifiedAggregatedAttestation.verify_slashable env st sa =
      (.error si, st', log))
    (he : si.error = .TooManySkippedSlots hb as) : False := by
  unfold VerifiedAggregatedAttestation.verify_slashable at h
  rcases hearly : VerifiedAggregatedAttestation.verify_early_checks env st sa
    with e₀ | root
  · rw [hearly] at h
    try dsimp only [] at h
    simp only [Prod.mk.injEq, Except.error.injEq] at h
    obtain ⟨h1, -, -⟩ := h
    rw [← h1] at he
    simp only [AttestationSlashInfo.error] at he
    subst he
    rcases agg_early_checks_error_cases env st sa _ hearly with
      ⟨s, l, hh⟩ | ⟨s, l, hh⟩ | ⟨b, hh⟩ | ⟨r, hh⟩ | ⟨i, hh⟩ | ⟨i, hh⟩ |
      ⟨r, hh⟩ | hh <;> simp at hh
  · rw [hearly] at h
    try dsimp only [] at h
    rcases hmap : map_attestation_committee env st sa.message.aggregate
        (VerifiedAggregatedAttestation.committee_transform env sa) with
      ⟨mr, mst⟩
    rw [hmap] at h
    rcases mr with e₀ | ia₀
    · try dsimp only [] at h
      simp only [Prod.mk.injEq, Except.error.injEq] at h
      obtain ⟨h1, -, -⟩ := h
      rw [← h1] at he
      simp only [AttestationSlashInfo.error] at he
      subst he
      rcases map_attestation_committee_error_cases env st
        sa.message.aggregate _ _ _ hmap with
        ⟨r, hh⟩ | ⟨sl, i, hh⟩ | ⟨b, hh⟩ | ⟨c, n, hh⟩
      · simp at hh
      · simp at hh
      · simp at hh
      · rcases committee_transform_error_cases env sa c n _ hh with
          ⟨b, hg⟩ | ⟨i, hg⟩ | ⟨i, hg⟩ <;> simp at hg
    · try dsimp only [] at h
      rcases hsig : verify_signed_aggregate_signatures env sa ia₀ with
        ⟨sr, slog⟩
      rw [hsig] at h
      rcases sr with e₀ | b
      · try dsimp only [] at h
        simp only [Prod.mk.injEq, Except.error.injEq] at h
        obtain ⟨h1, -, -⟩ := h
        rw [← h1] at he
        simp only [AttestationSlashInfo.error] at he
        subst he
        rcases verify_signed_aggregate_signatures_error_cases env sa ia₀ _ _
          hsig with hh | hh <;> simp at hh
      · rcases b with - | -
        · try dsimp only [] at h
          simp only [Prod.mk.injEq, Except.error.injEq] at h
          obtain ⟨h1, -, -⟩ := h
          rw [← h1] at he
          simp only [AttestationSlashInfo.error] at he
          simp at he
        · try dsimp only [] at h
          rcases hlate : VerifiedAggregatedAttestation.verify_late_checks env
            mst sa root with ⟨lr, lst⟩
          rw [hlate] at h
          rcases lr with e₀ | u
          · try dsimp only [] at h
            simp only [Prod.mk.injEq, Except.error.injEq] at h
            obtain ⟨h1, -, -⟩ := h
            rw [← h1] at he
            simp only [AttestationSlashInfo.error] at he
            subst he
            rcases agg_late_checks_error_cases env mst sa root _ lst hlate
              with hh | ⟨b, hh⟩ | ⟨i, ep, hh⟩ <;> simp at hh
          · simp at h

/-- C6: `verify_head_block_is_known` returns `UnknownHeadBlock` exactly when
the attestation's `beacon_block_root` is absent from the fork-choice index;
with a block present and `max_skip_slots = some k` it returns
`TooManySkippedSlots` exactly when `attestation.data.slot > block.slot + k`;
with `max_skip_slots = none` (how the aggregate pipeline always calls it) it
succeeds whenever the block is known, and the aggregate pipeline as a whole
can never fail with `TooManySkippedSlots`, while the unaggregated pipeline
enforces `config.import_max_skip_slots`. -/
theorem head_block_known_characterization (env : VEnv) (st : VState)
    (a : Attestation) (sa : SignedAggregateAndProof) (b : ProtoBlock)
    (k hb as sid : Nat) (mss : Option Nat) :
    ((verify_head_block_is_known env a mss =
        .error (.UnknownHeadBlock a.data.beacon_block_root)) ↔
      alookup env.fork_choice a.data.beacon_block_root = none) ∧
    (alookup env.fork_choice a.data.beacon_block_root = some b →
      ((verify_head_block_is_known env a (some k) =
          .error (.TooManySkippedSlots b.slot a.data.slot)) ↔
        b.slot + k < a.data.slot)) ∧
    (alookup env.fork_choice a.data.beacon_block_root = some b →
      verify_head_block_is_known env a none = .ok ()) ∧
    ((VerifiedAggregatedAttestation.verify env st sa).1 ≠
      .error (.TooManySkippedSlots hb as)) ∧
    (verify_propagation_slot_range env a = .ok () →
      a.aggregation_bits.count true = 1 →
      alookup env.fork_choice a.data.beacon_block_root = some b →
      env.import_max_skip_slots = some k →
      b.slot + k < a.data.slot →
      (VerifiedUnaggregatedAttestation.verify env st a sid).1 =
        .error (.TooManySkippedSlots b.slot a.data.slot)) := by
  refine ⟨?_, ?_, ?_, ?_, ?_⟩
  · unfold verify_head_block_is_known
    rcases hl : alookup env.fork_choice a.data.beacon_block_root with - | b₀
    · simp
    · rcases mss with - | k₀
      · simp
      · dsimp only []
        by_cases hk : a.data.slot > b₀.slot + k₀
      
        · rw [if_pos hk]
          simp
        · rw [if_neg hk]
          simp
  · intro hl
    unfold verify_head_block_is_known
    rw [hl]
    dsimp only []
    by_cases hk : a.data.slot > b.slot + k
    · rw [if_pos hk]
      simp [hk]
    · rw [if_neg hk]
      simp
      omega
  · intro hl
    unfold verify_head_block_is_known
    rw [hl]
  · intro hcontra
    rcases hre : VerifiedAggregatedAttestation.verify env st sa with
      ⟨r1, r2, r3⟩
    rw [hre] at hcontra
    simp only [] at hcontra
    subst hcontra
    obtain ⟨si, st', log, hsl, he, -⟩ :=
      agg_verify_error_inv env st sa _ r2 r3 hre
    exact agg_slashable_error_not_tms env st sa si st' log hb as hsl he
  · intro hslot hbits hl hk hskip
    have hearly : VerifiedUnaggregatedAttestation.verify_early_checks env a =
        .error (.TooManySkippedSlots b.slot a.data.slot) := by
      unfold VerifiedUnaggregatedAttestation.verify_early_checks
      rw [hslot]
      dsimp only []
      rw [hbits]
      rw [if_neg (by simp)]
      unfold verify_head_block_is_known
      rw [hl, hk]
      dsimp only []
      rw [if_pos hskip]
    have hsl : VerifiedUnaggregatedAttestation.verify_slashable env st a sid =
        (.error (.SignatureNotChecked a
          (.TooManySkippedSlots b.slot a.data.slot)), st, []) := by
      unfold VerifiedUnaggregatedAttestation.verify_slashable
      rw [hearly]
    have := unagg_verify_of_slashable_error env st a sid _ _ _ hsl
    simpa [AttestationSlashInfo.error] using this

/-- C6 witness: concrete instances of each conjunct, including the
skip-limit failure at slot 11 against a head block at slot 8 with limit 2
under a clock admitting slot 11. -/
theorem head_block_known_characterization_witness :
    (verify_head_block_is_known sample_env att_one none = .ok ()) ∧
    ((VerifiedAggregatedAttestation.verify sample_env state0 sagg).1 ≠
      .error (.TooManySkippedSlots 8 11)) ∧
    (VerifiedUnaggregatedAttestation.verify
      { sample_env with clock_future := some 11 } state0
      ⟨⟨11, 1, 7, ⟨0, 0⟩, ⟨2, 5⟩⟩, [false, true], 0⟩ 3).1 =
      .error (.TooManySkippedSlots 8 11) :=
  ⟨(head_block_known_characterization sample_env state0 att_one sagg
      ⟨8, 100⟩ 2 8 11 3 none).2.2.1 (by decide),
   (head_block_known_characterization sample_env state0 att_one sagg
      ⟨8, 100⟩ 2 8 11 3 none).2.2.2.1,
   (head_block_known_characterization
      { sample_env with clock_future := some 11 } state0
      ⟨⟨11, 1, 7, ⟨0, 0⟩, ⟨2, 5⟩⟩, [false, true], 0⟩ sagg
      ⟨8, 100⟩ 2 8 11 3 none).2.2.2.2 (by decide) (by decide) (by decide)
      (by decide) (by decide)⟩

/-! ## C7 -/

/-- C7: `process_slash_info` always returns the original pipeline error to
the caller; with a slasher configured it forwards the indexed attestation
exactly for `SignatureValid`, `SignatureNotCheckedIndexed`, and
`SignatureNotChecked` whose committee resolution succeeds; it never
forwards for `SignatureInvalid`; and when resolution of a
`SignatureNotChecked` entry itself errors, nothing reaches the slasher and
the resolution error is swallowed in favour of the original error. -/
theorem process_slash_info_contract (env : VEnv) (st st₁ : VState)
    (a : Attestation) (ia : IndexedAttestation) (cps : Nat) (e e' : Error)
    (si : AttestationSlashInfo) :
    ((process_slash_info env st si).1 = si.error) ∧
    (env.slasher = true →
      (process_slash_info env st (.SignatureValid ia e) =
        (e, { st with slasher_received := st.slasher_received ++ [ia] },
         [.slasherAccept])) ∧
      (process_slash_info env st (.SignatureNotCheckedIndexed ia e) =
        (e, { st with slasher_received := st.slasher_received ++ [ia] },
         [.slasherAccept])) ∧
      (obtain_indexed_attestation_and_committees_per_slot env st a =
          (.ok (ia, cps), st₁) →
        process_slash_info env st (.SignatureNotChecked a e) =
          (e, { st₁ with slasher_received := st₁.slasher_received ++ [ia] },
           [.slasherAccept])) ∧
      (process_slash_info env st (.SignatureInvalid e) = (e, st, [])) ∧
      (obtain_indexed_attestation_and_committees_per_slot env st a =
          (.error e', st₁) →
        process_slash_info env st (.SignatureNotChecked a e) =
          (e, st₁, []) ∧
        st₁.slasher_received = st.slasher_received)) := by
  refine ⟨process_slash_info_fst env st si, fun hs => ⟨?_, ?_, ?_, ?_, ?_⟩⟩
  · unfold process_slash_info
    rw [hs]
    simp
  · unfold process_slash_info
    rw [hs]
    simp
  · intro hobt
    unfold process_slash_info
    rw [hs]
    simp only [if_true]
    rw [hobt]
  · exact process_slash_info_sig_invalid env st e
  · intro hobt
    constructor
    · unfold process_slash_info
      rw [hs]
      simp only [if_true]
      rw [hobt]
    · exact (map_attestation_committee_frame env st a _ _ st₁ hobt).2.2.2

/-- C7 witness: the contract at the sample environment (slasher configured),
with a successful resolution for `att_one` and a failed resolution for an
attestation with an unknown target root. -/
theorem process_slash_info_contract_witness :
    (process_slash_info sample_env state0
        (.SignatureInvalid .InvalidSignature)).1 =
      (AttestationSlashInfo.SignatureInvalid Error.InvalidSignature).error ∧
    process_slash_info sample_env state0
      (.SignatureValid idx_att .EmptyAggregationBitfield) =
      (.EmptyAggregationBitfield,
       { state0 with slasher_received := state0.slasher_received ++
         [idx_att] }, [.slasherAccept]) ∧
    process_slash_info sample_env state0
      (.SignatureNotChecked att_one .EmptyAggregationBitfield) =
      (.EmptyAggregationBitfield,
       { observed_attestations := [], observed_aggregators := [],
         observed_attesters := [],
         shuffling_cache := [((2, 5), ⟨2, [((8, 1), [10, 42])]⟩)],
         slasher_received := [idx_att] }, [.slasherAccept]) :=
  ⟨(process_slash_info_contract sample_env state0 state0 att_one idx_att 2
      .EmptyAggregationBitfield .EmptyAggregationBitfield
      (.SignatureInvalid .InvalidSignature)).1,
   ((process_slash_info_contract sample_env state0 state0 att_one idx_att 2
      .EmptyAggregationBitfield .EmptyAggregationBitfield
      (.SignatureInvalid .InvalidSignature)).2 rfl).1,
   by
    have := (((process_slash_info_contract sample_env state0
      ⟨[], [], [], [((2, 5), ⟨2, [((8, 1), [10, 42])]⟩)], []⟩ att_one idx_att
      2 .EmptyAggregationBitfield .EmptyAggregationBitfield
      (.SignatureInvalid .InvalidSignature)).2 rfl).2.2.1 (by decide))
    simpa using this⟩

/-! ## C8 -/

/-- One iteration of the cache-miss fast-forward: per-slot processing with
the zero state-root sentinel (hashing disabled). -/
def zero_sentinel_step (s : BeaconState) : BeaconState :=
  per_slot_processing s (some 0)

theorem fast_forward_succ (spe aepoch fuel : Nat) (s : BeaconState)
    (hc : current_epoch spe s + 1 < aepoch) :
    fast_forward spe aepoch (fuel + 1) s =
      fast_forward spe aepoch fuel (zero_sentinel_step s) := by
  conv_lhs => rw [fast_forward]
  rw [if_pos hc]
  rfl

theorem fast_forward_stop (spe aepoch fuel : Nat) (s : BeaconState)
    (hc : ¬ current_epoch spe s + 1 < aepoch) :
    fast_forward spe aepoch fuel s = s := by
  cases fuel with
  | zero => rfl
  | succ fuel =>
    conv_lhs => rw [fast_forward]
    rw [if_neg hc]

/-- The fast-forward loop applies the zero-sentinel step exactly while
`current_epoch + 1 < attestation_epoch`: with positive `slots_per_epoch` and
enough fuel, its result is the `k`-th iterate where `k` is the first point
at which the condition fails, and the condition holds at every earlier
iterate. -/
theorem fast_forward_spec (spe aepoch : Nat) (hspe : 0 < spe) :
    ∀ fuel s, (aepoch - 1) * spe - s.slot ≤ fuel →
    ∃ k, fast_forward spe aepoch fuel s = zero_sentinel_step^[k] s ∧
      (∀ j, j < k →
        current_epoch spe (zero_sentinel_step^[j] s) + 1 < aepoch) ∧
      ¬ current_epoch spe (zero_sentinel_step^[k] s) + 1 < aepoch := by
  intro fuel
  induction fuel with
  | zero =>
    intro s hf
    refine ⟨0, rfl, by omega, ?_⟩
    have ht : (aepoch - 1) * spe ≤ s.slot :=
      Nat.le_of_sub_eq_zero (Nat.le_zero.mp hf)
    have hq : aepoch - 1 ≤ s.slot / spe := (Nat.le_div_iff_mul_le hspe).mpr ht
    unfold current_epoch
    simp only [Function.iterate_zero, id]
    omega
  | succ fuel ih =>
    intro s hf
    by_cases hc : current_epoch spe s + 1 < aepoch
    · have hq : s.slot / spe + 1 < aepoch := hc
      have hq' : s.slot / spe < aepoch - 1 := by omega
      have hlt : s.slot < (aepoch - 1) * spe :=
        (Nat.div_lt_iff_lt_mul hspe).mp hq'
      have hstep : (zero_sentinel_step s).slot = s.slot + 1 := rfl
      obtain ⟨k, h1, h2, h3⟩ := ih (zero_sentinel_step s) (by
        rw [hstep]
        omega)
      refine ⟨k + 1, ?_, ?_, ?_⟩
      · rw [fast_forward_succ spe aepoch fuel s hc, h1,
          Function.iterate_succ_apply]
      · intro j hj
        cases j with
        | zero => simpa using hc
        | succ j' =>
          rw [Function.iterate_succ_apply]
          exact h2 j' (by omega)
      · rw [Function.iterate_succ_apply]
        exact h3
    · exact ⟨0, fast_forward_stop spe aepoch (fuel + 1) s hc, by omega,
        by simpa using hc⟩

/-- C8: committee resolution. (1) An unknown target root fails
`UnknownTargetRoot(target.root)` with the cache state untouched and without
consulting the shuffling cache or storage (the result is the same for every
cache state and store). (2) The miss-path fast-forward applies per-slot
processing with the zero state-root sentinel exactly while
`current_epoch + 1 < attestation_epoch`. (3) On a shuffling-cache miss the
state identified by `target_block.state_root` is loaded, fast-forwarded,
and the committee cache built from it is inserted under
`(attestation_epoch, target.root)`; the result is the transform of the
committee found there, or `NoCommitteeForSlotAndIndex` if the cache has no
committee for `(slot, index)`. (4) On a hit, a missing committee also gives
`NoCommitteeForSlotAndIndex`. -/
theorem map_attestation_committee_characterization (R : Type) (env : VEnv)
    (st : VState) (a : Attestation) (f : List Nat → Nat → Except Error R)
    (tb : ProtoBlock) (cc ccb : CommitteeCache) (s₀ state' : BeaconState)
    (rel : RelativeEpoch) (c : List Nat) (s : BeaconState) (aepoch : Nat) :
    (alookup env.fork_choice a.data.target.root = none →
      map_attestation_committee env st a f =
        (.error (.UnknownTargetRoot a.data.target.root), st)) ∧
    (0 < env.slots_per_epoch →
      ∃ k, fast_forward env.slots_per_epoch aepoch
          (aepoch * env.slots_per_epoch + 1) s = zero_sentinel_step^[k] s ∧
        (∀ j, j < k → current_epoch env.slots_per_epoch
          (zero_sentinel_step^[j] s) + 1 < aepoch) ∧
        ¬ current_epoch env.slots_per_epoch
          (zero_sentinel_step^[k] s) + 1 < aepoch) ∧
    (alookup env.fork_choice a.data.target.root = some tb →
      alookup st.shuffling_cache
        (a.data.slot / env.slots_per_epoch, a.data.target.root) = none →
      env.store tb.state_root = some s₀ →
      fast_forward env.slots_per_epoch (a.data.slot / env.slots_per_epoch)
        (a.data.slot / env.slots_per_epoch * env.slots_per_epoch + 1) s₀ =
        state' →
      env.state_committee_cache state'
        (a.data.slot / env.slots_per_epoch) = ccb →
      RelativeEpoch.from_epoch (current_epoch env.slots_per_epoch state')
        (a.data.slot / env.slots_per_epoch) = some rel →
      ((map_attestation_committee env st a f).2.shuffling_cache =
        shuffling_insert st.shuffling_cache
          (a.data.slot / env.slots_per_epoch, a.data.target.root) ccb) ∧
      (ccb.get_beacon_committee a.data.slot a.data.index = none →
        (map_attestation_committee env st a f).1 =
          .error (.NoCommitteeForSlotAndIndex a.data.slot a.data.index)) ∧
      (ccb.get_beacon_committee a.data.slot a.data.index = some c →
        (map_attestation_committee env st a f).1 =
          f c ccb.committees_per_slot)) ∧
    (alookup env.fork_choice a.data.target.root = some tb →
      alookup st.shuffling_cache
        (a.data.slot / env.slots_per_epoch, a.data.target.root) = some cc →
      cc.get_beacon_committee a.data.slot a.data.index = none →
      map_attestation_committee env st a f =
        (.error (.NoCommitteeForSlotAndIndex a.data.slot a.data.index), st)) := by
  refine ⟨?_, ?_, ?_, ?_⟩
  · intro h
    unfold map_attestation_committee
    dsimp only []
    rw [h]
  · intro hspe
    exact fast_forward_spec env.slots_per_epoch aepoch hspe
      (aepoch * env.slots_per_epoch + 1) s
      (le_trans (Nat.sub_le _ _)
        (le_trans (Nat.mul_le_mul_right _ (Nat.sub_le _ _)) (Nat.le_succ _)))
  · intro htb hsc hstore hstate hccb hrel
    have hm : map_attestation_committee env st a f =
        ((match ccb.get_beacon_committee a.data.slot a.data.index with
          | some committee => f committee ccb.committees_per_slot
          | none =>
            .error (.NoCommitteeForSlotAndIndex a.data.slot a.data.index)),
         ⟨st.observed_attestations, st.observed_aggregators,
          st.observed_attesters,
          shuffling_insert st.shuffling_cache
            (a.data.slot / env.slots_per_epoch, a.data.target.root) ccb,
          st.slasher_received⟩) := by
      unfold map_attestation_committee
      dsimp only []
      rw [htb]
      dsimp only []
      rw [hsc]
      dsimp only []
      rw [hstore]
      dsimp only []
      rw [hstate, hccb, hrel]
      dsimp only []
      cases hg : ccb.get_beacon_committee a.data.slot a.data.index with
      | some committee => simp [hg]
      | none => simp [hg]
    refine ⟨by rw [hm], ?_, ?_⟩
    · intro hg
      rw [hm]
      simp [hg]
    · intro hg
      rw [hm]
      simp [hg]
  · intro htb hsc hg
    unfold map_attestation_committee
    dsimp only []
    rw [htb]
    dsimp only []
    rw [hsc]
    dsimp only []
    rw [hg]

/-- C8 witness: the miss path at the sample environment (empty shuffling
cache): the stored state at slot 2 is fast-forwarded to slot 4 with two
zero-sentinel steps, the built cache is inserted, and the committee for
`(8, 1)` is found. -/
theorem map_attestation_committee_characterization_witness :
    ((map_attestation_committee sample_env state0 att_one
        (fun c n => .ok (c, n))).2.shuffling_cache =
      shuffling_insert state0.shuffling_cache (2, 5)
        ⟨2, [((8, 1), [10, 42])]⟩) ∧
    ((map_attestation_committee sample_env state0 att_one
        (fun c n => .ok (c, n))).1 = .ok ([10, 42], 2)) ∧
    (∃ k, fast_forward 4 2 9 ⟨2, [], 0⟩ = zero_sentinel_step^[k] ⟨2, [], 0⟩ ∧
      (∀ j, j < k → current_epoch 4 (zero_sentinel_step^[j]
        (⟨2, [], 0⟩ : BeaconState)) + 1 < 2) ∧
      ¬ current_epoch 4 (zero_sentinel_step^[k]
        (⟨2, [], 0⟩ : BeaconState)) + 1 < 2) := by
  have hmain := map_attestation_committee_characterization
    (List Nat × Nat) sample_env state0 att_one (fun c n => .ok (c, n))
    ⟨8, 100⟩ ⟨2, [((8, 1), [10, 42])]⟩ ⟨2, [((8, 1), [10, 42])]⟩
    ⟨2, [], 0⟩ ⟨4, [0, 0], 0⟩ .Next [10, 42] ⟨2, [], 0⟩ 2
  obtain ⟨h1, h2, h3⟩ := hmain.2.2.1 (by decide) (by decide) (by decide)
    (by decide) (by decide) (by decide)
  exact ⟨h1, h3 (by decide), hmain.2.1 (by decide)⟩

end AttnVerification
